import Mathlib

/-!
Verification of the pylon-server session relay and protocol-framing subsystem.

The definitions below are shallow embeddings of the TypeScript sources:
* `GuacamoleParser` (instruction framer) from `src/web/src/components/rdp/PylonTunnel.ts`
* the session manager from `src/server/src/services/session-manager.ts`
* message parsing/validation from `src/server/src/websocket/messages.ts`
* the connection handler from `src/server/src/websocket/handler.ts`
* the ssh/rdp proxies from `src/server/src/websocket/ssh-proxy.ts` / `rdp-proxy.ts`
* the device registry from `src/server/src/services/device-registry.ts`

JavaScript `Map`s are modelled as insertion-ordered association lists with
map semantics (no duplicate keys), JavaScript `Set`s as insertion-ordered
duplicate-free lists, and strings as Lean `String` / `List Char`.
-/

namespace Pylon

/-! ## Instruction framer (`GuacamoleParser`, PylonTunnel.ts)

`feed` appends incoming data to the buffer and repeatedly extracts complete
instructions from the head; `tryParseOne` attempts to parse one instruction,
returning the parsed elements and the number of consumed characters, or
`none` when the buffer head is incomplete (or structurally unexpected). -/

/-- The digit test `buf[pos] >= '0' && buf[pos] <= '9'` used by `tryParseOne`. -/
def isGuacDigit (c : Char) : Bool :=
  decide ('0' ≤ c) && decide (c ≤ '9')

/-- `parseInt(lengthStr, 10)` applied to a string of decimal digits. -/
def digitsToNat (l : List Char) : Nat :=
  l.foldl (fun n c => n * 10 + (c.toNat - 48)) 0

/-- The first half of the loop body of `GuacamoleParser.tryParseOne`: read a
decimal length prefix (`lengthStr`), require the next character to be `'.'`,
require `len` more characters, and extract the element.  Returns the element,
the unexamined remainder, and the number of characters consumed; `none` covers
the four `return null` exits (`lengthStr.length === 0`, end of buffer after
the digits, a non-`'.'` character, not enough data for the element). -/
def readElem (rest : List Char) : Option (String × List Char × Nat) :=
  match rest.takeWhile isGuacDigit, rest.dropWhile isGuacDigit with
  | [], _ => none
  | _ :: _, [] => none
  | d0 :: ds, c :: rest2 =>
    if c ≠ '.' then none
    else if rest2.length < digitsToNat (d0 :: ds) then none
    else some (String.mk (rest2.take (digitsToNat (d0 :: ds))),
               rest2.drop (digitsToNat (d0 :: ds)),
               (d0 :: ds).length + 1 + digitsToNat (d0 :: ds))

/-- Successful `readElem` consumes between 2 characters and the whole input,
and it consumes exactly the characters preceding the returned remainder. -/
theorem readElem_split {rest : List Char} {v : String} {rest3 : List Char} {used : Nat}
    (h : readElem rest = some (v, rest3, used)) :
    used + rest3.length = rest.length ∧ 2 ≤ used := by
  unfold readElem at h
  split at h
  · exact absurd h (by simp)
  · exact absurd h (by simp)
  · rename_i d0 ds c rest2 htake hdrop
    have e1 : rest.takeWhile isGuacDigit ++ rest.dropWhile isGuacDigit = rest :=
      List.takeWhile_append_dropWhile isGuacDigit rest
    rw [htake, hdrop] at e1
    have e2 := congrArg List.length e1
    simp only [List.length_append, List.length_cons] at e2
    by_cases hc : c ≠ '.'
    · simp [hc] at h
    · simp only [hc, if_false] at h
      by_cases hlen : rest2.length < digitsToNat (d0 :: ds)
      · simp [hlen] at h
      · simp only [hlen, if_false, Option.some.injEq, Prod.mk.injEq] at h
        obtain ⟨-, h3, hu⟩ := h
        subst hu
        rw [← h3]
        simp only [List.length_drop, List.length_cons]
        omega

/-- The body of `GuacamoleParser.tryParseOne`.  `rest` is the not-yet-examined
part of the buffer, `consumed` the number of characters already consumed by
previous elements of the instruction, and `acc` the elements parsed so far.
After each element, the next character must be `';'` (instruction complete)
or `','` (more elements follow); anything else — including running out of
data — yields `none` ("wait for more data"). -/
def tryParseOneAux (rest : List Char) (consumed : Nat) (acc : List String) :
    Option (List String × Nat) :=
  match hre : readElem rest with
  | none => none
  | some (v, rest3, used) =>
    match rest3 with
    | [] => none
    | d :: rest4 =>
      if d = ';' then some (acc ++ [v], consumed + used + 1)
      else if d = ',' then tryParseOneAux rest4 (consumed + used + 1) (acc ++ [v])
      else none
termination_by rest.length
decreasing_by
  have := readElem_split hre
  simp only [List.length_cons] at this
  omega

/-- `GuacamoleParser.tryParseOne`: parse one complete instruction from the
head of the buffer, returning its elements and the consumed length.  The
empty buffer (the loop is never entered) yields `none` like any other
incomplete head. -/
def tryParseOne (buf : List Char) : Option (List String × Nat) :=
  tryParseOneAux buf 0 []

/-- Unfolding equation for `tryParseOneAux` with a plain (non-dependent) match. -/
theorem tryParseOneAux_eq (rest : List Char) (consumed : Nat) (acc : List String) :
    tryParseOneAux rest consumed acc =
      match readElem rest with
      | none => none
      | some (v, rest3, used) =>
        match rest3 with
        | [] => none
        | d :: rest4 =>
          if d = ';' then some (acc ++ [v], consumed + used + 1)
          else if d = ',' then tryParseOneAux rest4 (consumed + used + 1) (acc ++ [v])
          else none := by
  rw [tryParseOneAux]
  split <;> rename_i heq
  · conv_rhs => rw [heq]
  · conv_rhs => rw [heq]
    rename_i v rest3 used
    cases rest3 <;> rfl

/-- Bounds on the consumed count of a successful parse. -/
theorem tryParseOneAux_bounds : ∀ (n : Nat) (rest : List Char) (consumed : Nat)
    (acc els : List String) (k : Nat), rest.length ≤ n →
    tryParseOneAux rest consumed acc = some (els, k) →
    consumed + 3 ≤ k ∧ k ≤ consumed + rest.length := by
  intro n
  induction n with
  | zero =>
    intro rest consumed acc els k hn h
    interval_cases hr : rest.length
    rw [List.length_eq_zero] at hr
    subst hr
    rw [tryParseOneAux_eq] at h
    simp [readElem] at h
  | succ n ih =>
    intro rest consumed acc els k hn h
    rw [tryParseOneAux_eq] at h
    match hre : readElem rest with
    | none => rw [hre] at h; exact absurd h (by simp)
    | some (v, rest3, used) =>
      rw [hre] at h
      have hs := readElem_split hre
      match rest3 with
      | [] => exact absurd h (by simp)
      | d :: rest4 =>
        simp only [List.length_cons] at hs
        by_cases hd : d = ';'
        · simp only [hd, if_true, Option.some.injEq, Prod.mk.injEq] at h
          omega
        · by_cases hd2 : d = ','
          · simp only [hd, if_false, hd2, if_true] at h
            have hb := ih rest4 (consumed + used + 1) (acc ++ [v]) els k (by omega) h
            omega
          · simp [hd, hd2] at h

theorem tryParseOne_bounds {buf : List Char} {els : List String} {k : Nat}
    (h : tryParseOne buf = some (els, k)) : 3 ≤ k ∧ k ≤ buf.length := by
  have := tryParseOneAux_bounds buf.length buf 0 [] els k (le_refl _) h
  omega

/-- The guarded emission `if (elements.length > 0) callback(elements[0],
elements.slice(1))` in `GuacamoleParser.feed`. -/
def emitOf (elements : List String) : List (String × List String) :=
  match elements with
  | [] => []
  | op :: args => [(op, args)]

/-- `GuacamoleParser.feed`'s drain loop: repeatedly extract complete
instructions from the buffer head, collecting the emitted
(opcode, arguments) pairs; stops as soon as `tryParseOne` yields `none`. -/
def drain (buf : List Char) : List (String × List String) × List Char :=
  match h : tryParseOne buf with
  | none => ([], buf)
  | some (elements, consumed) =>
    let res := drain (buf.drop consumed)
    (emitOf elements ++ res.1, res.2)
termination_by buf.length
decreasing_by
  have := tryParseOne_bounds h
  simp only [List.length_drop]
  omega

/-- `GuacamoleParser.feed`: append the incoming fragment to the buffer and
drain; returns the emitted (opcode, arguments) pairs and the new buffer. -/
def feed (buffer data : List Char) : List (String × List String) × List Char :=
  drain (buffer ++ data)

/-- Unfolding equation for `drain` with a plain match. -/
theorem drain_eq (buf : List Char) :
    drain buf = match tryParseOne buf with
      | none => ([], buf)
      | some (elements, consumed) =>
        (emitOf elements ++ (drain (buf.drop consumed)).1,
         (drain (buf.drop consumed)).2) := by
  rw [drain]
  split <;> rename_i heq
  · conv_rhs => rw [heq]
  · conv_rhs => rw [heq]

theorem tryParseOne_nil : tryParseOne [] = none := by
  rw [tryParseOne, tryParseOneAux_eq]; rfl

/-- If `dropWhile` hits a failing element, appending data on the right does
not change the scanned prefix. -/
theorem dropWhile_cons_extend {p : Char → Bool} :
    ∀ {l : List Char} {c : Char} {t : List Char} (ext : List Char),
    l.dropWhile p = c :: t →
    (l ++ ext).takeWhile p = l.takeWhile p ∧ (l ++ ext).dropWhile p = c :: (t ++ ext) := by
  intro l
  induction l with
  | nil => intro c t ext h; simp at h
  | cons a l ih =>
    intro c t ext h
    by_cases hp : p a
    · rw [List.dropWhile_cons, if_pos hp] at h
      have hx := ih ext h
      simp only [List.cons_append, List.takeWhile_cons, List.dropWhile_cons, hp, if_true,
        hx.1, hx.2]
      exact ⟨trivial, trivial⟩
    · rw [List.dropWhile_cons, if_neg hp] at h
      injection h with h1 h2
      subst h1; subst h2
      simp [List.takeWhile_cons, List.dropWhile_cons, hp]

/-- A successful `readElem` is stable under appending more data. -/
theorem readElem_extend {rest : List Char} {v : String} {rest3 : List Char} {used : Nat}
    (ext : List Char) (h : readElem rest = some (v, rest3, used)) :
    readElem (rest ++ ext) = some (v, rest3 ++ ext, used) := by
  unfold readElem at h ⊢
  split at h
  · exact absurd h (by simp)
  · exact absurd h (by simp)
  · rename_i d0 ds c rest2 htake hdrop
    have hx := dropWhile_cons_extend ext hdrop
    rw [htake] at hx
    by_cases hc : c ≠ '.'
    · simp [hc] at h
    · simp only [hc, if_false] at h
      by_cases hlen : rest2.length < digitsToNat (d0 :: ds)
      · simp [hlen] at h
      · simp only [hlen, if_false, Option.some.injEq, Prod.mk.injEq] at h
        obtain ⟨h1, h3, hu⟩ := h
        have htake2 : (rest2 ++ ext).take (digitsToNat (d0 :: ds)) =
            rest2.take (digitsToNat (d0 :: ds)) := by
          rw [List.take_append_eq_append_take]
          have : digitsToNat (d0 :: ds) - rest2.length = 0 := by omega
          simp [this]
        have hdrop2 : (rest2 ++ ext).drop (digitsToNat (d0 :: ds)) =
            rest2.drop (digitsToNat (d0 :: ds)) ++ ext := by
          rw [List.drop_append_eq_append_drop]
          have : digitsToNat (d0 :: ds) - rest2.length = 0 := by omega
          simp [this]
        simp only [hx.1, hx.2, htake2, hdrop2]
        have : ¬ ((rest2 ++ ext).length < digitsToNat (d0 :: ds)) := by
          simp only [List.length_append]; omega
        simp only [hc, if_false, List.length_append]
        rw [if_neg (by omega)]
        rw [h1, h3, hu]

/-- A successful one-instruction parse is stable under appending more data. -/
theorem tryParseOneAux_extend : ∀ (n : Nat) (rest : List Char) (consumed : Nat)
    (acc els : List String) (k : Nat) (ext : List Char), rest.length ≤ n →
    tryParseOneAux rest consumed acc = some (els, k) →
    tryParseOneAux (rest ++ ext) consumed acc = some (els, k) := by
  intro n
  induction n with
  | zero =>
    intro rest consumed acc els k ext hn h
    have : rest = [] := List.length_eq_zero.mp (by omega)
    subst this
    rw [tryParseOneAux_eq] at h
    simp [readElem] at h
  | succ n ih =>
    intro rest consumed acc els k ext hn h
    rw [tryParseOneAux_eq] at h ⊢
    match hre : readElem rest with
    | none => rw [hre] at h; exact absurd h (by simp)
    | some (v, rest3, used) =>
      rw [hre] at h
      rw [readElem_extend ext hre]
      have hs := readElem_split hre
      cases rest3 with
      | nil => exact absurd h (by simp)
      | cons d rest4 =>
        simp only [List.cons_append]
        simp only [List.length_cons] at hs
        by_cases hd : d = ';'
        · simpa [hd] using h
        · by_cases hd2 : d = ','
          · simp only [hd, if_false, hd2, if_true] at h ⊢
            exact ih rest4 (consumed + used + 1) (acc ++ [v]) els k ext (by omega) h
          · simp [hd, hd2] at h

theorem tryParseOne_extend {buf : List Char} {els : List String} {k : Nat}
    (ext : List Char) (h : tryParseOne buf = some (els, k)) :
    tryParseOne (buf ++ ext) = some (els, k) :=
  tryParseOneAux_extend buf.length buf 0 [] els k ext le_rfl h

/-- Draining `x ++ y` is the same as draining `x`, then draining the leftover
buffer with `y` appended — the heart of fragmentation invariance. -/
theorem drain_append : ∀ (n : Nat) (x y : List Char), x.length ≤ n →
    drain (x ++ y) = ((drain x).1 ++ (drain ((drain x).2 ++ y)).1,
                      (drain ((drain x).2 ++ y)).2) := by
  intro n
  induction n with
  | zero =>
    intro x y hx
    have : x = [] := List.length_eq_zero.mp (by omega)
    subst this
    rw [drain_eq [], tryParseOne_nil]
    simp
  | succ n ih =>
    intro x y hx
    match htp : tryParseOne x with
    | none =>
      rw [drain_eq x, htp]
      simp
    | some (els, k) =>
      have hb := tryParseOne_bounds htp
      have htp2 : tryParseOne (x ++ y) = some (els, k) := tryParseOne_extend y htp
      rw [drain_eq (x ++ y), htp2, drain_eq x, htp]
      dsimp only
      have hdrop : (x ++ y).drop k = x.drop k ++ y := by
        rw [List.drop_append_eq_append_drop]
        have : k - x.length = 0 := by omega
        simp [this]
      rw [hdrop]
      have hrec := ih (x.drop k) y (by simp only [List.length_drop]; omega)
      rw [hrec]
      simp [List.append_assoc]

/-! ### Encoding (`buildInstruction`) and the parse round trip -/

/-- Decimal digit characters, for rendering a length prefix. -/
def digitToChar : Nat → Char
  | 0 => '0' | 1 => '1' | 2 => '2' | 3 => '3' | 4 => '4'
  | 5 => '5' | 6 => '6' | 7 => '7' | 8 => '8' | _ => '9'

/-- Decimal rendering of a natural number, as in the template `${el.length}`. -/
def natToDigitChars (n : Nat) : List Char :=
  if n = 0 then ['0'] else ((Nat.digits 10 n).map digitToChar).reverse

/-- One length-prefixed element `${el.length}.${el}` of `buildInstruction`. -/
def encodeElem (s : String) : List Char :=
  natToDigitChars s.length ++ '.' :: s.data

/-- `parts.join(',')` over the encoded elements. -/
def encodeBody : List String → List Char
  | [] => []
  | [e] => encodeElem e
  | e :: e2 :: es => encodeElem e ++ ',' :: encodeBody (e2 :: es)

/-- `buildInstruction` from PylonTunnel.ts: comma-joined length-prefixed
elements terminated by `';'`.  The element list is split into opcode and
arguments, so it is never empty. -/
def buildInstruction (op : String) (args : List String) : List Char :=
  encodeBody (op :: args) ++ [';']

theorem isGuacDigit_digitToChar (d : Nat) : isGuacDigit (digitToChar d) = true := by
  unfold digitToChar
  split <;> decide

theorem digitToChar_val {d : Nat} (hd : d < 10) : (digitToChar d).toNat - 48 = d := by
  interval_cases d <;> decide

theorem natToDigitChars_ne_nil (n : Nat) : natToDigitChars n ≠ [] := by
  unfold natToDigitChars
  split
  · simp
  · rename_i hn
    simp [Nat.digits_ne_nil_iff_ne_zero.mpr hn]

theorem natToDigitChars_all_digits {n : Nat} {c : Char} (hc : c ∈ natToDigitChars n) :
    isGuacDigit c = true := by
  unfold natToDigitChars at hc
  split at hc
  · simp at hc; subst hc; decide
  · simp only [List.mem_reverse, List.mem_map] at hc
    obtain ⟨d, -, rfl⟩ := hc
    exact isGuacDigit_digitToChar d

theorem digitsToNat_append_singleton (A : List Char) (c : Char) :
    digitsToNat (A ++ [c]) = digitsToNat A * 10 + (c.toNat - 48) := by
  unfold digitsToNat
  rw [List.foldl_append]
  rfl

theorem digitsToNat_rev_map (l : List Nat) (hl : ∀ d ∈ l, d < 10) :
    digitsToNat ((l.map digitToChar).reverse) = Nat.ofDigits 10 l := by
  induction l with
  | nil => simp [digitsToNat, Nat.ofDigits_nil]
  | cons d t ih =>
    simp only [List.map_cons, List.reverse_cons]
    rw [digitsToNat_append_singleton]
    rw [ih (fun x hx => hl x (List.mem_cons_of_mem d hx))]
    rw [digitToChar_val (hl d (List.mem_cons_self d t))]
    rw [Nat.ofDigits_cons]
    omega

theorem digitsToNat_natToDigitChars (n : Nat) : digitsToNat (natToDigitChars n) = n := by
  unfold natToDigitChars
  split
  · rename_i hn; subst hn; rfl
  · rw [digitsToNat_rev_map _ (fun d hd => Nat.digits_lt_base (by norm_num) hd)]
    exact Nat.ofDigits_digits 10 n

/-- If a block of satisfying characters is followed by a failing one,
`takeWhile`/`dropWhile` split exactly there. -/
theorem takeWhile_all_append {p : Char → Bool} :
    ∀ {A : List Char}, (∀ a ∈ A, p a = true) → ∀ {c : Char}, p c = false → ∀ (B : List Char),
    (A ++ c :: B).takeWhile p = A ∧ (A ++ c :: B).dropWhile p = c :: B := by
  intro A
  induction A with
  | nil =>
    intro _ c hc B
    simp [List.takeWhile_cons, List.dropWhile_cons, hc]
  | cons a A ih =>
    intro hA c hc B
    have ha : p a = true := hA a (List.mem_cons_self a A)
    have hx := ih (fun x hx => hA x (List.mem_cons_of_mem a hx)) hc B
    simp only [List.cons_append, List.takeWhile_cons, List.dropWhile_cons, ha, if_true,
      hx.1, hx.2]
    exact ⟨trivial, trivial⟩

theorem string_mk_data (s : String) : String.mk s.data = s := rfl

/-- Parsing an encoded element from the head of the buffer recovers it. -/
theorem readElem_encodeElem (s : String) (rest : List Char) :
    readElem (encodeElem s ++ rest) = some (s, rest, (encodeElem s).length) := by
  have hsplit := takeWhile_all_append (p := isGuacDigit) (A := natToDigitChars s.length)
    (fun a ha => natToDigitChars_all_digits ha) (c := '.') (by decide) (s.data ++ rest)
  have harr : encodeElem s ++ rest =
      natToDigitChars s.length ++ '.' :: (s.data ++ rest) := by
    simp [encodeElem]
  rw [harr]
  unfold readElem
  match hnd : natToDigitChars s.length with
  | [] => exact absurd hnd (natToDigitChars_ne_nil s.length)
  | d0 :: ds =>
    rw [hnd] at hsplit
    simp only [hsplit.1, hsplit.2]
    have hlen : digitsToNat (d0 :: ds) = s.length := by
      rw [← hnd]; exact digitsToNat_natToDigitChars s.length
    have hdlen : s.length = s.data.length := rfl
    simp only [hlen]
    rw [if_neg (by simp : ¬('.' ≠ '.')),
      if_neg (by simp only [List.length_append]; omega)]
    have htake : (s.data ++ rest).take s.length = s.data := by
      rw [hdlen]; exact List.take_left s.data rest
    have hdrop : (s.data ++ rest).drop s.length = rest := by
      rw [hdlen]; exact List.drop_left s.data rest
    rw [htake, hdrop, string_mk_data]
    have hul : (d0 :: ds).length + 1 + s.length = (encodeElem s).length := by
      simp only [encodeElem, List.length_append, List.length_cons, hnd]
      omega
    rw [hul]

/-- Parsing the encoded body of a nonempty element list followed by `';'`
recovers all elements. -/
theorem tryParseOneAux_encodeBody :
    ∀ (es : List String) (e : String) (rest : List Char) (consumed : Nat) (acc : List String),
    tryParseOneAux (encodeBody (e :: es) ++ ';' :: rest) consumed acc =
      some (acc ++ (e :: es), consumed + (encodeBody (e :: es)).length + 1) := by
  intro es
  induction es with
  | nil =>
    intro e rest consumed acc
    rw [tryParseOneAux_eq]
    have : encodeBody [e] = encodeElem e := rfl
    rw [this, readElem_encodeElem e (';' :: rest)]
    simp
  | cons e2 es ih =>
    intro e rest consumed acc
    rw [tryParseOneAux_eq]
    have hb : encodeBody (e :: e2 :: es) ++ ';' :: rest =
        encodeElem e ++ ',' :: (encodeBody (e2 :: es) ++ ';' :: rest) := by
      simp [encodeBody]
    rw [hb, readElem_encodeElem e (',' :: (encodeBody (e2 :: es) ++ ';' :: rest))]
    dsimp only
    rw [if_neg (by decide : ¬ (',' = ';')), if_pos (rfl : (',' : Char) = ',')]
    rw [ih e2 rest (consumed + (encodeElem e).length + 1) (acc ++ [e])]
    have hl : (encodeBody (e :: e2 :: es)).length =
        (encodeElem e).length + 1 + (encodeBody (e2 :: es)).length := by
      simp [encodeBody]
      omega
    simp [hl]
    omega

/-- Parsing an encoded instruction from the head of the buffer recovers
opcode and arguments and consumes exactly its bytes. -/
theorem tryParseOne_buildInstruction (op : String) (args : List String) (rest : List Char) :
    tryParseOne (buildInstruction op args ++ rest) =
      some (op :: args, (buildInstruction op args).length) := by
  have harr : buildInstruction op args ++ rest = encodeBody (op :: args) ++ ';' :: rest := by
    simp [buildInstruction]
  rw [tryParseOne, harr, tryParseOneAux_encodeBody]
  simp [buildInstruction]

/-- Draining a buffer consisting of encoded instructions emits exactly those
instructions, in order, and leaves an empty buffer. -/
theorem drain_encoded : ∀ (instrs : List (String × List String)),
    drain ((instrs.map (fun i => buildInstruction i.1 i.2)).flatten) = (instrs, []) := by
  intro instrs
  induction instrs with
  | nil => rw [List.map_nil, List.flatten_nil, drain_eq, tryParseOne_nil]
  | cons i t ih =>
    rw [List.map_cons, List.flatten_cons, drain_eq,
      tryParseOne_buildInstruction i.1 i.2]
    dsimp only
    rw [List.drop_left]
    rw [ih]
    simp [emitOf]

theorem drain_suffix : ∀ (n : Nat) (buf : List Char), buf.length ≤ n →
    ∃ k, k ≤ buf.length ∧ (drain buf).2 = buf.drop k := by
  intro n
  induction n with
  | zero =>
    intro buf hn
    have : buf = [] := List.length_eq_zero.mp (by omega)
    subst this
    exact ⟨0, by simp, by rw [drain_eq, tryParseOne_nil]; rfl⟩
  | succ n ih =>
    intro buf hn
    match htp : tryParseOne buf with
    | none =>
      refine ⟨0, by simp, ?_⟩
      rw [drain_eq, htp, List.drop_zero]
    | some (els, k0) =>
      have hb := tryParseOne_bounds htp
      obtain ⟨k1, hk1, he⟩ := ih (buf.drop k0) (by simp only [List.length_drop]; omega)
      refine ⟨k0 + k1, ?_, ?_⟩
      · simp only [List.length_drop] at hk1; omega
      · rw [drain_eq, htp]
        dsimp only
        rw [he, List.drop_drop]

/-- C2: for every instruction stream and every split of it into two fragments,
feeding the framer the two fragments in order emits exactly the same
(opcode, arguments) sequence — and leaves the same buffer — as feeding the
unsplit stream in one fragment (first conjunct; this covers instructions of
any number of elements, in particular 1, 2 and 5); and the framer emits every
instruction contained in a single fragment, in order (second conjunct). -/
theorem guacamole_framer_split_invariance :
    (∀ d1 d2 : List Char,
      feed [] (d1 ++ d2) =
        ((feed [] d1).1 ++ (feed (feed [] d1).2 d2).1, (feed (feed [] d1).2 d2).2)) ∧
    (∀ instrs : List (String × List String),
      feed [] ((instrs.map (fun i => buildInstruction i.1 i.2)).flatten) = (instrs, [])) := by
  constructor
  · intro d1 d2
    have h := drain_append d1.length d1 d2 le_rfl
    simpa [feed] using h
  · intro instrs
    simpa [feed] using drain_encoded instrs

/-- C9: when the head of the buffered stream is structurally invalid or
incomplete (`tryParseOne` yields `none`), a feed emits nothing and leaves the
buffered bytes unchanged (first conjunct); the buffer is only ever shortened
from the front (second conjunct); and whenever bytes are removed, exactly the
`consumed` bytes of a confirmed complete instruction are removed, with that
instruction emitted (third conjunct). -/
theorem guacamole_framer_conservative_buffering :
    (∀ buffer data : List Char, tryParseOne (buffer ++ data) = none →
      feed buffer data = ([], buffer ++ data)) ∧
    (∀ buf : List Char, ∃ k, k ≤ buf.length ∧ (drain buf).2 = buf.drop k) ∧
    (∀ (buf : List Char) (els : List String) (k : Nat), tryParseOne buf = some (els, k) →
      drain buf = (emitOf els ++ (drain (buf.drop k)).1, (drain (buf.drop k)).2)) := by
  refine ⟨?_, ?_, ?_⟩
  · intro buffer data h
    rw [feed, drain_eq, h]
  · intro buf
    exact drain_suffix buf.length buf le_rfl
  · intro buf els k h
    rw [drain_eq, h]

/-- Witness: the buffer `"5.ab"` (length prefix 5 with only 2 element bytes
available) is an incomplete head, so feeding it across two fragments emits
nothing and keeps all four characters buffered. -/
theorem guacamole_framer_conservative_buffering_witness :
    feed ['5', '.'] ['a', 'b'] = ([], ['5', '.', 'a', 'b']) :=
  guacamole_framer_conservative_buffering.1 ['5', '.'] ['a', 'b'] (by
    rw [tryParseOne, tryParseOneAux_eq]; rfl)

/-! ## JavaScript `Map` / `Set` helpers

Insertion-ordered association lists with `Map` semantics and
insertion-ordered duplicate-free lists with `Set` semantics. -/

/-- `Map.get` -/
def mapLookup {α : Type} (m : List (String × α)) (k : String) : Option α :=
  match m with
  | [] => none
  | (k', v) :: rest => if k' = k then some v else mapLookup rest k

/-- `Map.has` -/
def mapHas {α : Type} (m : List (String × α)) (k : String) : Bool :=
  (mapLookup m k).isSome

/-- `Map.set`: update an existing key in place, otherwise append. -/
def mapSet {α : Type} (m : List (String × α)) (k : String) (v : α) : List (String × α) :=
  match m with
  | [] => [(k, v)]
  | (k', v') :: rest => if k' = k then (k', v) :: rest else (k', v') :: mapSet rest k v

/-- `Map.delete` -/
def mapDelete {α : Type} (m : List (String × α)) (k : String) : List (String × α) :=
  m.filter (fun p => p.1 ≠ k)

/-- Mutation of the value object obtained via `Map.get(k)` (e.g.
`map.get(k)?.add(x)` or `session.status = ...` on a stored record). -/
def mapUpdate {α : Type} (m : List (String × α)) (k : String) (f : α → α) :
    List (String × α) :=
  match m with
  | [] => []
  | (k', v) :: rest => if k' = k then (k', f v) :: rest else (k', v) :: mapUpdate rest k f

/-- `Set.add`: append if absent. -/
def setAdd (s : List String) (x : String) : List String :=
  if x ∈ s then s else s ++ [x]

/-- `Set.delete`: remove the element, keeping order. -/
def setDelete (s : List String) (x : String) : List String :=
  s.filter (fun y => y ≠ x)

/-- Keys of a map, in insertion order. -/
def mapKeys {α : Type} (m : List (String × α)) : List String :=
  m.map Prod.fst

/-! ## Session manager (session-manager.ts)

The SSH and the RDP session manager are two textually identical copies over
different record types; `SessionTriple` captures the shared shape (the by-id
map and the two secondary indexes), and the concrete `createSession` /
`closeSession` / `createRDPSession` / `closeRDPSession` instantiate it. -/

inductive SessionStatus where
  | connecting | active | closed
deriving DecidableEq, Repr

/-- `SSHSession` from types/session.ts; sockets are modelled as numeric
transport handles. -/
structure SSHSession where
  id : String
  deviceId : String
  browserSocket : Nat
  agentSocket : Nat
  status : SessionStatus
  createdAt : Nat
  terminalSizeCols : Int
  terminalSizeRows : Int
deriving DecidableEq, Repr

/-- `RDPSession` from types/session.ts. -/
structure RDPSession where
  id : String
  deviceId : String
  browserSocket : Nat
  agentSocket : Nat
  status : SessionStatus
  createdAt : Nat
deriving DecidableEq, Repr

/-- One session kind's three indexes: `sessions` (by id), `sessionsByBrowser`,
`sessionsByDevice` (buckets of session ids, modelling `Set<string>`). -/
structure SessionTriple (σ : Type) where
  byId : List (String × σ)
  byBrowser : List (String × List String)
  byDevice : List (String × List String)
deriving DecidableEq, Repr

/-- The empty indexes. -/
def emptyTriple {σ : Type} : SessionTriple σ := ⟨[], [], []⟩

/-- The bucket insertion of `createSession`:
`if (!m.has(k)) m.set(k, new Set()); m.get(k)?.add(id)`. -/
def bucketAdd (m : List (String × List String)) (k id : String) :
    List (String × List String) :=
  let m1 := if mapHas m k then m else mapSet m k []
  mapUpdate m1 k (fun ids => setAdd ids id)

/-- The bucket removal loop of `closeSession`:
`for ([key, ids] of m) { if (ids.delete(sessionId) && ids.size === 0) {
m.delete(key); break; } }` — note that the loop keeps running (and keeps
deleting) when the bucket stays nonempty, and stops early only when a bucket
becomes empty. -/
def removeIdFromBuckets (m : List (String × List String)) (sessionId : String) :
    List (String × List String) :=
  match m with
  | [] => []
  | (k, ids) :: rest =>
    if sessionId ∈ ids then
      if setDelete ids sessionId = [] then rest
      else (k, setDelete ids sessionId) :: removeIdFromBuckets rest sessionId
    else (k, ids) :: removeIdFromBuckets rest sessionId

/-- Generic session creation over a `SessionTriple` (the shared body of
`createSession` and `createRDPSession`).  The socket lookups are the
closures installed by `setSessionSocketLookups` (handler.ts installs them at
module initialisation, so they are modelled as always configured); `fresh`
stands for the `randomUUID()` used when the caller supplies no id;
`mkRec` builds the record.  Errors reproduce the three `throw` sites; no
state is touched on any error path, exactly as in the source where the
`throw`s precede all mutations. -/
def tripleCreate {σ : Type} (t : SessionTriple σ)
    (lookupBrowser lookupAgent : String → Option Nat)
    (deviceId browserId : String) (sessionId : Option String) (fresh : String)
    (mkRec : String → Nat → Nat → σ) : Except String (σ × SessionTriple σ) :=
  match lookupBrowser browserId with
  | none => .error ("Browser socket not found for browserId " ++ browserId)
  | some browserSocket =>
    match lookupAgent deviceId with
    | none => .error ("Agent socket not found for deviceId " ++ deviceId)
    | some agentSocket =>
      let id := sessionId.getD fresh
      if mapHas t.byId id then .error ("session already exists for sessionId " ++ id)
      else
        let sess := mkRec id browserSocket agentSocket
        .ok (sess,
          { byId := mapSet t.byId id sess
            byBrowser := bucketAdd t.byBrowser browserId id
            byDevice := bucketAdd t.byDevice deviceId id })

/-- Generic session close (the shared body of `closeSession` and
`closeRDPSession`): a no-op when the id is unknown; otherwise the record is
removed from the by-id map and from the two bucket indexes.  (The
`session.status = 'closed'` write mutates the record being discarded and is
invisible in the remaining state.) -/
def tripleClose {σ : Type} (t : SessionTriple σ) (sessionId : String) :
    SessionTriple σ :=
  match mapLookup t.byId sessionId with
  | none => t
  | some _ =>
    { byId := mapDelete t.byId sessionId
      byBrowser := removeIdFromBuckets t.byBrowser sessionId
      byDevice := removeIdFromBuckets t.byDevice sessionId }

/-- `getSessionsByBrowser` / `getRDPSessionsByBrowser`: look up the bucket
and resolve each id through the by-id map, skipping dangling ids. -/
def tripleByBrowser {σ : Type} (t : SessionTriple σ) (browserId : String) : List σ :=
  match mapLookup t.byBrowser browserId with
  | none => []
  | some ids => ids.filterMap (fun id => mapLookup t.byId id)

/-- `getSessionsByDevice` / `getRDPSessionsByDevice`. -/
def tripleByDevice {σ : Type} (t : SessionTriple σ) (deviceId : String) : List σ :=
  match mapLookup t.byDevice deviceId with
  | none => []
  | some ids => ids.filterMap (fun id => mapLookup t.byId id)

/-- The session manager's whole mutable state: the SSH triple and the RDP
triple (six top-level `Map`s in session-manager.ts). -/
structure SMState where
  ssh : SessionTriple SSHSession
  rdp : SessionTriple RDPSession
deriving DecidableEq, Repr

def initSM : SMState := ⟨emptyTriple, emptyTriple⟩

/-- `createSession(deviceId, browserId, sessionId?)`. -/
def createSession (lookupBrowser lookupAgent : String → Option Nat)
    (deviceId browserId : String) (sessionId : Option String) (fresh : String)
    (now : Nat) (s : SMState) : Except String (SSHSession × SMState) :=
  match tripleCreate s.ssh lookupBrowser lookupAgent deviceId browserId sessionId fresh
      (fun id bs as =>
        { id := id, deviceId := deviceId, browserSocket := bs, agentSocket := as,
          status := .connecting, createdAt := now,
          terminalSizeCols := 80, terminalSizeRows := 24 }) with
  | .error e => .error e
  | .ok (sess, t) => .ok (sess, { s with ssh := t })

/-- `closeSession(sessionId, reason?)`; the `reason` is accepted and then
discarded (`void reason`). -/
def closeSession (sessionId : String) (_reason : Option String) (s : SMState) : SMState :=
  { s with ssh := tripleClose s.ssh sessionId }

/-- `createRDPSession(deviceId, browserId, sessionId?)`. -/
def createRDPSession (lookupBrowser lookupAgent : String → Option Nat)
    (deviceId browserId : String) (sessionId : Option String) (fresh : String)
    (now : Nat) (s : SMState) : Except String (RDPSession × SMState) :=
  match tripleCreate s.rdp lookupBrowser lookupAgent deviceId browserId sessionId fresh
      (fun id bs as =>
        { id := id, deviceId := deviceId, browserSocket := bs, agentSocket := as,
          status := .connecting, createdAt := now }) with
  | .error e => .error e
  | .ok (sess, t) => .ok (sess, { s with rdp := t })

/-- `closeRDPSession(sessionId, reason?)`. -/
def closeRDPSession (sessionId : String) (_reason : Option String) (s : SMState) : SMState :=
  { s with rdp := tripleClose s.rdp sessionId }

/-- One create or close call against the session manager (either kind).
Creates carry the socket-lookup environment, the caller-supplied id option,
the `randomUUID()` result and the clock value. -/
inductive SMOp where
  | createSSH (lookupBrowser lookupAgent : String → Option Nat)
      (deviceId browserId : String) (sessionId : Option String) (fresh : String) (now : Nat)
  | closeSSH (sessionId : String) (reason : Option String)
  | createRDP (lookupBrowser lookupAgent : String → Option Nat)
      (deviceId browserId : String) (sessionId : Option String) (fresh : String) (now : Nat)
  | closeRDP (sessionId : String) (reason : Option String)

/-- Apply one call; a create that throws leaves the state unchanged. -/
def applySM (s : SMState) : SMOp → SMState
  | .createSSH lb la dev bro sid fresh now =>
    match createSession lb la dev bro sid fresh now s with
    | .ok (_, s') => s'
    | .error _ => s
  | .closeSSH sid reason => closeSession sid reason s
  | .createRDP lb la dev bro sid fresh now =>
    match createRDPSession lb la dev bro sid fresh now s with
    | .ok (_, s') => s'
    | .error _ => s
  | .closeRDP sid reason => closeRDPSession sid reason s

/-- All ids stored in the buckets of a secondary index, with multiplicity. -/
def joinedIds (m : List (String × List String)) : List String :=
  (m.map Prod.snd).flatten

/-! ### Map and set lemmas -/

theorem mapLookup_eq_none_iff {α : Type} {m : List (String × α)} {k : String} :
    mapLookup m k = none ↔ k ∉ mapKeys m := by
  induction m with
  | nil => simp [mapLookup, mapKeys]
  | cons p rest ih =>
    obtain ⟨k', v⟩ := p
    by_cases hk : k' = k
    · subst hk
      simp [mapLookup, mapKeys]
    · simp [mapLookup, mapKeys, hk, ih]
      intro h
      exact fun hx => hk hx.symm

theorem mapHas_iff {α : Type} {m : List (String × α)} {k : String} :
    mapHas m k = true ↔ k ∈ mapKeys m := by
  rw [mapHas, Option.isSome_iff_ne_none]
  constructor
  · intro h
    by_contra hk
    exact h (mapLookup_eq_none_iff.mpr hk)
  · intro h hn
    exact (mapLookup_eq_none_iff.mp hn) h

theorem mapHas_false_iff {α : Type} {m : List (String × α)} {k : String} :
    mapHas m k = false ↔ k ∉ mapKeys m := by
  rw [← Bool.not_eq_true, not_iff_not]
  exact mapHas_iff

theorem mapSet_of_not_has {α : Type} {m : List (String × α)} {k : String} (v : α)
    (h : mapHas m k = false) : mapSet m k v = m ++ [(k, v)] := by
  induction m with
  | nil => simp [mapSet]
  | cons p rest ih =>
    obtain ⟨k', v'⟩ := p
    have hk : k' ≠ k := by
      intro hk
      subst hk
      rw [mapHas_false_iff] at h
      simp [mapKeys] at h
    have hrest : mapHas rest k = false := by
      rw [mapHas_false_iff] at h ⊢
      simp [mapKeys] at h ⊢
      exact h.2
    simp [mapSet, hk, ih hrest]

theorem mapDelete_keys {α : Type} (m : List (String × α)) (k : String) :
    mapKeys (mapDelete m k) = (mapKeys m).filter (fun x => x ≠ k) := by
  induction m with
  | nil => simp [mapDelete, mapKeys]
  | cons p rest ih =>
    obtain ⟨k', v⟩ := p
    by_cases hk : k' = k <;>
      simp [mapDelete, mapKeys, List.filter_cons, hk] at ih ⊢ <;>
      simpa [mapDelete, mapKeys] using ih

theorem mapUpdate_keys {α : Type} (m : List (String × α)) (k : String) (f : α → α) :
    mapKeys (mapUpdate m k f) = mapKeys m := by
  induction m with
  | nil => rfl
  | cons p rest ih =>
    obtain ⟨k', v⟩ := p
    by_cases hk : k' = k <;> simp [mapUpdate, mapKeys, hk] at ih ⊢ <;>
      simpa [mapKeys] using ih

theorem setAdd_mem {s : List String} {x y : String} :
    y ∈ setAdd s x ↔ y ∈ s ∨ y = x := by
  unfold setAdd
  by_cases hx : x ∈ s
  · simp only [hx, if_true]
    constructor
    · exact fun h => Or.inl h
    · rintro (h | rfl) <;> assumption
  · simp [hx]

theorem setAdd_nodup {s : List String} {x : String} (h : s.Nodup) :
    (setAdd s x).Nodup := by
  unfold setAdd
  by_cases hx : x ∈ s
  · simpa [hx]
  · simp only [hx, if_false]
    simp [List.nodup_append, h, hx]

theorem setDelete_mem {s : List String} {x y : String} :
    y ∈ setDelete s x ↔ y ∈ s ∧ y ≠ x := by
  simp [setDelete, List.mem_filter]

theorem setDelete_nodup {s : List String} {x : String} (h : s.Nodup) :
    (setDelete s x).Nodup :=
  h.filter _

theorem setDelete_eq_nil_iff {s : List String} {x : String} :
    setDelete s x = [] ↔ ∀ y ∈ s, y = x := by
  simp [setDelete, List.filter_eq_nil_iff]

/-! ### Bucket index lemmas -/

theorem joinedIds_cons (k : String) (ids : List String) (rest : List (String × List String)) :
    joinedIds ((k, ids) :: rest) = ids ++ joinedIds rest := by
  simp [joinedIds]

theorem joinedIds_append (m1 m2 : List (String × List String)) :
    joinedIds (m1 ++ m2) = joinedIds m1 ++ joinedIds m2 := by
  simp [joinedIds]

theorem mapUpdate_of_not_has {α : Type} {m : List (String × α)} {k : String} {f : α → α}
    (h : mapHas m k = false) : mapUpdate m k f = m := by
  rw [mapHas_false_iff] at h
  induction m with
  | nil => rfl
  | cons q t iht =>
    obtain ⟨q1, q2⟩ := q
    simp only [mapKeys, List.map_cons, List.mem_cons, not_or] at h
    have hq1 : q1 ≠ k := fun he => h.1 he.symm
    simp [mapUpdate, hq1, iht (by simpa [mapKeys] using h.2)]

theorem upd_mem_iff {m : List (String × List String)} {k id x : String}
    (hk : mapHas m k = true) :
    x ∈ joinedIds (mapUpdate m k (fun ids => setAdd ids id)) ↔
      x ∈ joinedIds m ∨ x = id := by
  induction m with
  | nil => simp [mapHas, mapLookup] at hk
  | cons p rest ih =>
    obtain ⟨k', ids⟩ := p
    by_cases hkk : k' = k
    · subst hkk
      have h1 : mapUpdate ((k', ids) :: rest) k' (fun ids => setAdd ids id)
          = (k', setAdd ids id) :: rest := by
        simp [mapUpdate]
      rw [h1, joinedIds_cons, joinedIds_cons]
      simp only [List.mem_append, setAdd_mem]
      tauto
    · have hrest : mapHas rest k = true := by
        simpa [mapHas, mapLookup, hkk] using hk
      have h1 : mapUpdate ((k', ids) :: rest) k (fun ids => setAdd ids id)
          = (k', ids) :: mapUpdate rest k (fun ids => setAdd ids id) := by
        simp [mapUpdate, hkk]
      rw [h1, joinedIds_cons, joinedIds_cons, List.mem_append, List.mem_append, ih hrest]
      tauto

theorem upd_nodup {m : List (String × List String)} {k id : String}
    (hn : (joinedIds m).Nodup) (hid : id ∉ joinedIds m) :
    (joinedIds (mapUpdate m k (fun ids => setAdd ids id))).Nodup := by
  induction m with
  | nil => simpa [mapUpdate] using hn
  | cons p rest ih =>
    obtain ⟨k', ids⟩ := p
    rw [joinedIds_cons] at hn hid
    rw [List.nodup_append] at hn
    obtain ⟨hids, hrest, hdisj⟩ := hn
    simp only [List.mem_append] at hid
    push_neg at hid
    by_cases hkk : k' = k
    · subst hkk
      have h1 : mapUpdate ((k', ids) :: rest) k' (fun ids => setAdd ids id)
          = (k', setAdd ids id) :: rest := by
        simp [mapUpdate]
      rw [h1, joinedIds_cons, List.nodup_append]
      refine ⟨setAdd_nodup hids, hrest, ?_⟩
      intro a ha hb
      rw [setAdd_mem] at ha
      rcases ha with ha | rfl
      · exact hdisj ha hb
      · exact hid.2 hb
    · have h1 : mapUpdate ((k', ids) :: rest) k (fun ids => setAdd ids id)
          = (k', ids) :: mapUpdate rest k (fun ids => setAdd ids id) := by
        simp [mapUpdate, hkk]
      rw [h1, joinedIds_cons, List.nodup_append]
      refine ⟨hids, ih hrest hid.2, ?_⟩
      intro a ha hb
      by_cases hmk : mapHas rest k = true
      · rw [upd_mem_iff hmk] at hb
        rcases hb with hb | rfl
        · exact hdisj ha hb
        · exact hid.1 ha
      · rw [mapUpdate_of_not_has (by rwa [Bool.not_eq_true] at hmk)] at hb
        exact hdisj ha hb

theorem bucketAdd_mem_iff {m : List (String × List String)} {k id x : String} :
    x ∈ joinedIds (bucketAdd m k id) ↔ x ∈ joinedIds m ∨ x = id := by
  unfold bucketAdd
  by_cases hk : mapHas m k = true
  · simp only [hk, if_true]
    exact upd_mem_iff hk
  · rw [Bool.not_eq_true] at hk
    simp only [hk, Bool.false_eq_true, if_false]
    rw [mapSet_of_not_has [] hk]
    have hk2 : mapHas (m ++ [(k, [])]) k = true := by
      rw [mapHas_iff]
      simp [mapKeys]
    rw [upd_mem_iff hk2, joinedIds_append]
    simp [joinedIds]

theorem bucketAdd_nodup {m : List (String × List String)} {k id : String}
    (hn : (joinedIds m).Nodup) (hid : id ∉ joinedIds m) :
    (joinedIds (bucketAdd m k id)).Nodup := by
  unfold bucketAdd
  by_cases hk : mapHas m k = true
  · simp only [hk, if_true]
    exact upd_nodup hn hid
  · rw [Bool.not_eq_true] at hk
    simp only [hk, Bool.false_eq_true, if_false]
    rw [mapSet_of_not_has [] hk]
    have hje : joinedIds (m ++ [(k, [])]) = joinedIds m := by
      rw [joinedIds_append]; simp [joinedIds]
    apply upd_nodup <;> rw [hje] <;> assumption

theorem bucketAdd_keys_nodup {m : List (String × List String)} {k id : String}
    (hn : (mapKeys m).Nodup) : (mapKeys (bucketAdd m k id)).Nodup := by
  unfold bucketAdd
  by_cases hk : mapHas m k = true
  · simp only [hk, if_true, mapUpdate_keys]
    exact hn
  · rw [Bool.not_eq_true] at hk
    simp only [hk, Bool.false_eq_true, if_false]
    rw [mapSet_of_not_has [] hk, mapUpdate_keys]
    have hke : mapKeys (m ++ [(k, ([] : List String))]) = mapKeys m ++ [k] := by
      simp [mapKeys]
    rw [hke, List.nodup_append]
    refine ⟨hn, by simp, ?_⟩
    intro a ha hb
    simp only [List.mem_singleton] at hb
    subst hb
    exact (mapHas_false_iff.mp hk) ha

theorem rib_mem {sid x : String} : ∀ {m : List (String × List String)},
    (joinedIds m).Nodup →
    (x ∈ joinedIds (removeIdFromBuckets m sid) ↔ x ∈ joinedIds m ∧ x ≠ sid) := by
  intro m
  induction m with
  | nil => simp [removeIdFromBuckets, joinedIds]
  | cons p rest ih =>
    intro hn
    obtain ⟨k, ids⟩ := p
    rw [joinedIds_cons, List.nodup_append] at hn
    obtain ⟨hids, hrest, hdisj⟩ := hn
    by_cases hin : sid ∈ ids
    · by_cases hemp : setDelete ids sid = []
      · have hall : ∀ y ∈ ids, y = sid := setDelete_eq_nil_iff.mp hemp
        simp only [removeIdFromBuckets, if_pos hin, if_pos hemp]
        rw [joinedIds_cons]
        constructor
        · intro hx
          refine ⟨List.mem_append_right _ hx, ?_⟩
          intro he; subst he
          exact hdisj hin hx
        · rintro ⟨hx, hne⟩
          rcases List.mem_append.mp hx with h | h
          · exact absurd (hall x h) hne
          · exact h
      · simp only [removeIdFromBuckets, if_pos hin, if_neg hemp]
        rw [joinedIds_cons, joinedIds_cons, List.mem_append, List.mem_append,
          ih hrest, setDelete_mem]
        tauto
    · simp only [removeIdFromBuckets, if_neg hin]
      rw [joinedIds_cons, joinedIds_cons, List.mem_append, List.mem_append, ih hrest]
      have hne : x ∈ ids → x ≠ sid := fun hx he => hin (he ▸ hx)
      tauto

theorem rib_nodup {sid : String} : ∀ {m : List (String × List String)},
    (joinedIds m).Nodup → (joinedIds (removeIdFromBuckets m sid)).Nodup := by
  intro m
  induction m with
  | nil => simp [removeIdFromBuckets, joinedIds]
  | cons p rest ih =>
    intro hn
    obtain ⟨k, ids⟩ := p
    rw [joinedIds_cons, List.nodup_append] at hn
    obtain ⟨hids, hrest, hdisj⟩ := hn
    by_cases hin : sid ∈ ids
    · by_cases hemp : setDelete ids sid = []
      · simp only [removeIdFromBuckets, if_pos hin, if_pos hemp]
        exact hrest
      · simp only [removeIdFromBuckets, if_pos hin, if_neg hemp]
        rw [joinedIds_cons, List.nodup_append]
        refine ⟨setDelete_nodup hids, ih hrest, ?_⟩
        intro a ha hb
        rw [setDelete_mem] at ha
        rw [rib_mem hrest] at hb
        exact hdisj ha.1 hb.1
    · simp only [removeIdFromBuckets, if_neg hin]
      rw [joinedIds_cons, List.nodup_append]
      refine ⟨hids, ih hrest, ?_⟩
      intro a ha hb
      rw [rib_mem hrest] at hb
      exact hdisj ha hb.1

theorem rib_keys_sublist {sid : String} : ∀ (m : List (String × List String)),
    List.Sublist (mapKeys (removeIdFromBuckets m sid)) (mapKeys m) := by
  intro m
  induction m with
  | nil => simp [removeIdFromBuckets, mapKeys]
  | cons p rest ih =>
    obtain ⟨k, ids⟩ := p
    by_cases hin : sid ∈ ids
    · by_cases hemp : setDelete ids sid = []
      · simp only [removeIdFromBuckets, if_pos hin, if_pos hemp]
        exact List.Sublist.trans (List.Sublist.refl _) (List.sublist_cons_self _ _)
      · simp only [removeIdFromBuckets, if_pos hin, if_neg hemp]
        exact List.Sublist.cons₂ k ih
    · simp only [removeIdFromBuckets, if_neg hin]
      exact List.Sublist.cons₂ k ih

/-! ### The three-index consistency invariant (C1) -/

/-- The invariant tying the by-id map to the two bucket indexes of one
session kind: all keys unique, every bucket id occurs exactly once across
all buckets, and bucket membership coincides with by-id membership. -/
structure TripleInv {σ : Type} (t : SessionTriple σ) : Prop where
  idKeys : (mapKeys t.byId).Nodup
  bKeys : (mapKeys t.byBrowser).Nodup
  dKeys : (mapKeys t.byDevice).Nodup
  bJoin : (joinedIds t.byBrowser).Nodup
  dJoin : (joinedIds t.byDevice).Nodup
  memB : ∀ id, id ∈ mapKeys t.byId ↔ id ∈ joinedIds t.byBrowser
  memD : ∀ id, id ∈ mapKeys t.byId ↔ id ∈ joinedIds t.byDevice

theorem emptyTriple_inv {σ : Type} : TripleInv (emptyTriple (σ := σ)) := by
  constructor <;> simp [emptyTriple, mapKeys, joinedIds]

theorem tripleCreate_inv {σ : Type} {t t' : SessionTriple σ}
    {lb la : String → Option Nat} {dev bro : String} {sid : Option String}
    {fresh : String} {mk : String → Nat → Nat → σ} {r : σ}
    (hI : TripleInv t)
    (h : tripleCreate t lb la dev bro sid fresh mk = .ok (r, t')) : TripleInv t' := by
  unfold tripleCreate at h
  split at h
  · exact absurd h (by simp)
  · split at h
    · exact absurd h (by simp)
    · by_cases hhas : mapHas t.byId (sid.getD fresh) = true
      · rw [if_pos hhas] at h
        exact absurd h (by simp)
      · rw [Bool.not_eq_true] at hhas
        rw [if_neg (by simp [hhas])] at h
        simp only [Except.ok.injEq, Prod.mk.injEq] at h
        obtain ⟨-, ht'⟩ := h
        subst ht'
        set id := sid.getD fresh with hid
        have hidk : id ∉ mapKeys t.byId := mapHas_false_iff.mp hhas
        have hjb : id ∉ joinedIds t.byBrowser := fun hx => hidk ((hI.memB id).mpr hx)
        have hjd : id ∉ joinedIds t.byDevice := fun hx => hidk ((hI.memD id).mpr hx)
        have hkeys : ∀ v : σ, mapKeys (mapSet t.byId id v) = mapKeys t.byId ++ [id] := by
          intro v
          rw [mapSet_of_not_has _ hhas]
          simp [mapKeys]
        constructor
        · rw [hkeys _, List.nodup_append]
          exact ⟨hI.idKeys, by simp, fun a ha hb => by
            simp only [List.mem_singleton] at hb
            exact hidk (hb ▸ ha)⟩
        · exact bucketAdd_keys_nodup hI.bKeys
        · exact bucketAdd_keys_nodup hI.dKeys
        · exact bucketAdd_nodup hI.bJoin hjb
        · exact bucketAdd_nodup hI.dJoin hjd
        · intro x
          rw [hkeys _, List.mem_append, List.mem_singleton, bucketAdd_mem_iff, hI.memB x]
        · intro x
          rw [hkeys _, List.mem_append, List.mem_singleton, bucketAdd_mem_iff, hI.memD x]

theorem tripleClose_inv {σ : Type} {t : SessionTriple σ} {sid : String}
    (hI : TripleInv t) : TripleInv (tripleClose t sid) := by
  unfold tripleClose
  split
  · exact hI
  · have hkeys : ∀ x, x ∈ mapKeys (mapDelete t.byId sid) ↔ x ∈ mapKeys t.byId ∧ x ≠ sid := by
      intro x
      rw [mapDelete_keys]
      simp [List.mem_filter]
    constructor
    · rw [mapDelete_keys]
      exact hI.idKeys.filter _
    · exact List.Nodup.sublist (rib_keys_sublist t.byBrowser) hI.bKeys
    · exact List.Nodup.sublist (rib_keys_sublist t.byDevice) hI.dKeys
    · exact rib_nodup hI.bJoin
    · exact rib_nodup hI.dJoin
    · intro x
      rw [hkeys x, rib_mem hI.bJoin, hI.memB x]
    · intro x
      rw [hkeys x, rib_mem hI.dJoin, hI.memD x]

/-- The session-manager invariant over both kinds. -/
def SMInv (s : SMState) : Prop := TripleInv s.ssh ∧ TripleInv s.rdp

theorem applySM_inv {s : SMState} (hI : SMInv s) (op : SMOp) : SMInv (applySM s op) := by
  obtain ⟨hssh, hrdp⟩ := hI
  cases op with
  | createSSH lb la dev bro sid fresh now =>
    simp only [applySM]
    split
    · rename_i r s' hcr
      unfold createSession at hcr
      split at hcr
      · exact absurd hcr (by simp)
      · rename_i sess t hok
        simp only [Except.ok.injEq, Prod.mk.injEq] at hcr
        obtain ⟨-, hs'⟩ := hcr
        subst hs'
        exact ⟨tripleCreate_inv hssh hok, hrdp⟩
    · exact ⟨hssh, hrdp⟩
  | closeSSH sid reason =>
    exact ⟨tripleClose_inv hssh, hrdp⟩
  | createRDP lb la dev bro sid fresh now =>
    simp only [applySM]
    split
    · rename_i r s' hcr
      unfold createRDPSession at hcr
      split at hcr
      · exact absurd hcr (by simp)
      · rename_i sess t hok
        simp only [Except.ok.injEq, Prod.mk.injEq] at hcr
        obtain ⟨-, hs'⟩ := hcr
        subst hs'
        exact ⟨hssh, tripleCreate_inv hrdp hok⟩
    · exact ⟨hssh, hrdp⟩
  | closeRDP sid reason =>
    exact ⟨hssh, tripleClose_inv hrdp⟩

theorem foldl_applySM_inv {s : SMState} (hs : SMInv s) :
    ∀ (ops : List SMOp), SMInv (ops.foldl applySM s) := by
  intro ops
  induction ops generalizing s with
  | nil => exact hs
  | cons op ops ih => exact ih (applySM_inv hs op)

theorem reachable_SMInv (ops : List SMOp) : SMInv (ops.foldl applySM initSM) :=
  foldl_applySM_inv ⟨emptyTriple_inv, emptyTriple_inv⟩ ops

theorem tripleInv_count {σ : Type} {t : SessionTriple σ} (hI : TripleInv t) (id : String) :
    ((joinedIds t.byBrowser).count id = if mapHas t.byId id then 1 else 0) ∧
    ((joinedIds t.byDevice).count id = if mapHas t.byId id then 1 else 0) := by
  by_cases hmem : id ∈ mapKeys t.byId
  · rw [if_pos (mapHas_iff.mpr hmem)]
    exact ⟨List.count_eq_one_of_mem hI.bJoin ((hI.memB id).mp hmem),
           List.count_eq_one_of_mem hI.dJoin ((hI.memD id).mp hmem)⟩
  · rw [if_neg (fun h => hmem (mapHas_iff.mp h))]
    exact ⟨List.count_eq_zero_of_not_mem (fun h => hmem ((hI.memB id).mpr h)),
           List.count_eq_zero_of_not_mem (fun h => hmem ((hI.memD id).mpr h))⟩

/-- C1: after any sequence of create/close calls (SSH or RDP), each session
id occurs in the by-browser index and in the by-device index exactly once
when it is live in the by-id map and zero times otherwise — for both session
kinds.  So the three indexes always agree on the set of live session ids,
every live id sits in exactly one browser bucket and one device bucket, and
no bucket holds a dead id. -/
theorem session_index_consistency (ops : List SMOp) (id : String) :
    let s := ops.foldl applySM initSM
    ((joinedIds s.ssh.byBrowser).count id = if mapHas s.ssh.byId id then 1 else 0) ∧
    ((joinedIds s.ssh.byDevice).count id = if mapHas s.ssh.byId id then 1 else 0) ∧
    ((joinedIds s.rdp.byBrowser).count id = if mapHas s.rdp.byId id then 1 else 0) ∧
    ((joinedIds s.rdp.byDevice).count id = if mapHas s.rdp.byId id then 1 else 0) := by
  obtain ⟨hssh, hrdp⟩ := reachable_SMInv ops
  obtain ⟨h1, h2⟩ := tripleInv_count hssh id
  obtain ⟨h3, h4⟩ := tripleInv_count hrdp id
  exact ⟨h1, h2, h3, h4⟩

/-! ### Duplicate session ids (C3) -/

theorem tripleCreate_dup {σ : Type} (t : SessionTriple σ)
    (lb la : String → Option Nat) (dev bro sid fresh : String)
    (mk : String → Nat → Nat → σ) (hhas : mapHas t.byId sid = true) :
    ∃ e, tripleCreate t lb la dev bro (some sid) fresh mk = .error e := by
  unfold tripleCreate
  cases hlb : lb bro with
  | none => exact ⟨_, rfl⟩
  | some bs =>
    cases hla : la dev with
    | none => exact ⟨_, rfl⟩
    | some as_ =>
      have hg : (some sid).getD fresh = sid := rfl
      rw [hg]
      dsimp only
      rw [if_pos hhas]
      exact ⟨_, rfl⟩

/-- C3 (amended): creating a session whose caller-supplied id is already live
within the same kind always fails and leaves the manager state untouched —
the SSH duplicate check consults only the SSH map and the RDP check only the
RDP map, so ids are unique per kind, not globally. -/
theorem duplicate_session_id_rejected_per_kind (s : SMState)
    (lb la : String → Option Nat) (dev bro sid fresh : String) (now : Nat) :
    (mapHas s.ssh.byId sid = true →
      (∃ e, createSession lb la dev bro (some sid) fresh now s = .error e) ∧
      applySM s (.createSSH lb la dev bro (some sid) fresh now) = s) ∧
    (mapHas s.rdp.byId sid = true →
      (∃ e, createRDPSession lb la dev bro (some sid) fresh now s = .error e) ∧
      applySM s (.createRDP lb la dev bro (some sid) fresh now) = s) := by
  constructor
  · intro hhas
    obtain ⟨e, he⟩ := tripleCreate_dup s.ssh lb la dev bro sid fresh _ hhas
    have hcs : createSession lb la dev bro (some sid) fresh now s = .error e := by
      unfold createSession
      rw [he]
    exact ⟨⟨e, hcs⟩, by simp only [applySM, hcs]⟩
  · intro hhas
    obtain ⟨e, he⟩ := tripleCreate_dup s.rdp lb la dev bro sid fresh _ hhas
    have hcs : createRDPSession lb la dev bro (some sid) fresh now s = .error e := by
      unfold createRDPSession
      rw [he]
    exact ⟨⟨e, hcs⟩, by simp only [applySM, hcs]⟩

/-- Witness: in a state holding a live SSH session `"s1"`, creating another
SSH session with id `"s1"` fails and changes nothing. -/
theorem duplicate_session_id_rejected_per_kind_witness :
    (∃ e, createSession (fun _ => some 0) (fun _ => some 1) "d" "b" (some "s1") "f2" 0
      (applySM initSM
        (.createSSH (fun _ => some 0) (fun _ => some 1) "d" "b" (some "s1") "f" 0))
      = .error e) ∧
    applySM
      (applySM initSM
        (.createSSH (fun _ => some 0) (fun _ => some 1) "d" "b" (some "s1") "f" 0))
      (.createSSH (fun _ => some 0) (fun _ => some 1) "d" "b" (some "s1") "f2" 0)
      = applySM initSM
          (.createSSH (fun _ => some 0) (fun _ => some 1) "d" "b" (some "s1") "f" 0) :=
  (duplicate_session_id_rejected_per_kind
    (applySM initSM (.createSSH (fun _ => some 0) (fun _ => some 1) "d" "b" (some "s1") "f" 0))
    (fun _ => some 0) (fun _ => some 1) "d" "b" "s1" "f2" 0).1 (by decide)

/-- Counterexample to C3 as stated: with an SSH session `"s1"` live, creating
an RDP session with the same caller-supplied id `"s1"` succeeds (no throw, and
the state is mutated), after which two live sessions carry id `"s1"`. -/
theorem duplicate_session_id_cross_kind_counterexample :
    let s1 := applySM initSM
      (.createSSH (fun _ => some 0) (fun _ => some 1) "d" "b" (some "s1") "f" 0)
    let s2 := applySM s1
      (.createRDP (fun _ => some 0) (fun _ => some 1) "d" "b" (some "s1") "f2" 0)
    mapHas s1.ssh.byId "s1" = true ∧
    (createRDPSession (fun _ => some 0) (fun _ => some 1) "d" "b" (some "s1") "f2" 0
      s1).isOk = true ∧
    s2 ≠ s1 ∧
    mapHas s2.ssh.byId "s1" = true ∧ mapHas s2.rdp.byId "s1" = true := by
  decide

/-! ## Message parsing and validation (messages.ts)

Untrusted inbound data is modelled as a JavaScript value (`JVal`); an
unparsable wire string is `none` (`JSON.parse` threw). -/

/-- A parsed JavaScript value.  `jnum` carries the numeric value and a
finiteness flag (`JSON.parse("1e999")` yields `Infinity`). -/
inductive JVal where
  | jnull
  | jbool (b : Bool)
  | jnum (v : Int) (finite : Bool)
  | jstr (s : String)
  | jarr (xs : List JVal)
  | jobj (fields : List (String × JVal))

/-- JavaScript property access `v[k]`; `none` is `undefined`. -/
def jGet : JVal → String → Option JVal
  | .jobj fields, k => mapLookup fields k
  | _, _ => none

/-- `typeof payload !== 'object' || payload === null` — the object guard
shared by every payload validator (arrays pass `typeof === 'object'`). -/
def isObjectNonNull : Option JVal → Bool
  | some (.jobj _) => true
  | some (.jarr _) => true
  | _ => false

/-- `isValidMessageStructure`: an object (non-null) with a non-empty string
`type` and a finite numeric `timestamp`. -/
def isValidMessageStructure (v : JVal) : Bool :=
  isObjectNonNull (some v) &&
  (match jGet v "type" with
   | some (.jstr s) => decide (s.length ≠ 0)
   | _ => false) &&
  (match jGet v "timestamp" with
   | some (.jnum _ finite) => finite
   | _ => false)

/-- `ParsedMessage` from types/messages.ts. -/
structure ParsedMessage where
  type : String
  timestamp : Int
  payload : Option JVal

/-- `parseMessage`: `none` models a `JSON.parse` throw; otherwise the
structure check.  The `ValidationResult` record is rendered as `Except`
(`error` vs `message`). -/
def parseMessage (data : Option JVal) : Except String ParsedMessage :=
  match data with
  | none => .error "Failed to parse JSON"
  | some v =>
    if isValidMessageStructure v then
      match jGet v "type", jGet v "timestamp" with
      | some (.jstr s), some (.jnum ts _) => .ok ⟨s, ts, jGet v "payload"⟩
      | _, _ => .error "Invalid message structure: must have type (string) and timestamp (number)"
    else .error "Invalid message structure: must have type (string) and timestamp (number)"

/-- `VALID_MESSAGE_TYPES` / `isHandledMessageType`. -/
def isHandledMessageType (t : String) : Bool :=
  t == "agent:register" || t == "agent:heartbeat" || t == "devices:list:request" ||
  t == "ssh:session:request" || t == "ssh:session:response" || t == "ssh:data" ||
  t == "ssh:resize" || t == "ssh:close" || t == "rdp:session:request" ||
  t == "rdp:session:response" || t == "rdp:data" || t == "rdp:close" || t == "error"

/-- `{ ssh: boolean; rdp?: boolean }`. -/
structure Caps where
  ssh : Bool
  rdp : Option Bool
deriving DecidableEq, Repr

structure AgentRegisterData where
  deviceId : String
  deviceName : String
  ipAddress : String
  capabilities : Caps
deriving DecidableEq, Repr

/-- `validateAgentRegisterPayload`. -/
def validateAgentRegisterPayload (payload : Option JVal) : Except String AgentRegisterData :=
  if !isObjectNonNull payload then .error "Payload must be an object"
  else
    let p := payload.getD .jnull
    match jGet p "deviceId" with
    | some (.jstr deviceId) =>
      if deviceId.length = 0 then .error "deviceId must be a non-empty string"
      else
        match jGet p "deviceName" with
        | some (.jstr deviceName) =>
          if deviceName.length = 0 then .error "deviceName must be a non-empty string"
          else
            match jGet p "ipAddress" with
            | some (.jstr ipAddress) =>
              if ipAddress.length = 0 then .error "ipAddress must be a non-empty string"
              else
                if !isObjectNonNull (jGet p "capabilities")
                then .error "capabilities must be an object"
                else
                  let caps := (jGet p "capabilities").getD .jnull
                  match jGet caps "ssh" with
                  | some (.jbool sshCap) =>
                    let rdpCap := match jGet caps "rdp" with
                      | some (.jbool b) => some b
                      | _ => none
                    .ok ⟨deviceId, deviceName, ipAddress, ⟨sshCap, rdpCap⟩⟩
                  | _ => .error "capabilities.ssh must be a boolean"
            | _ => .error "ipAddress must be a non-empty string"
        | _ => .error "deviceName must be a non-empty string"
    | _ => .error "deviceId must be a non-empty string"

/-- `validateAgentHeartbeatPayload`. -/
def validateAgentHeartbeatPayload (payload : Option JVal) : Except String String :=
  if !isObjectNonNull payload then .error "Payload must be an object"
  else
    match jGet (payload.getD .jnull) "deviceId" with
    | some (.jstr deviceId) =>
      if deviceId.length = 0 then .error "deviceId must be a non-empty string"
      else .ok deviceId
    | _ => .error "deviceId must be a non-empty string"

structure SessionRequestData where
  deviceId : String
  sessionId : String
deriving DecidableEq, Repr

/-- `validateSshSessionRequestPayload`. -/
def validateSshSessionRequestPayload (payload : Option JVal) :
    Except String SessionRequestData :=
  if !isObjectNonNull payload then .error "Payload must be an object"
  else
    let p := payload.getD .jnull
    match jGet p "deviceId" with
    | some (.jstr deviceId) =>
      if deviceId.length = 0 then .error "deviceId must be a non-empty string"
      else
        match jGet p "sessionId" with
        | some (.jstr sessionId) =>
          if sessionId.length = 0 then .error "sessionId must be a non-empty string"
          else .ok ⟨deviceId, sessionId⟩
        | _ => .error "sessionId must be a non-empty string"
    | _ => .error "deviceId must be a non-empty string"

structure SessionResponseData where
  sessionId : String
  success : Bool
  error : Option String
deriving DecidableEq, Repr

/-- `validateSshSessionResponsePayload`. -/
def validateSshSessionResponsePayload (payload : Option JVal) :
    Except String SessionResponseData :=
  if !isObjectNonNull payload then .error "Payload must be an object"
  else
    let p := payload.getD .jnull
    match jGet p "sessionId" with
    | some (.jstr sessionId) =>
      if sessionId.length = 0 then .error "sessionId must be a non-empty string"
      else
        match jGet p "success" with
        | some (.jbool success) =>
          match jGet p "error" with
          | none => .ok ⟨sessionId, success, none⟩
          | some (.jstr e) => .ok ⟨sessionId, success, some e⟩
          | some _ => .error "error must be a string when provided"
        | _ => .error "success must be a boolean"
    | _ => .error "sessionId must be a non-empty string"

structure SessionDataData where
  sessionId : String
  data : String
deriving DecidableEq, Repr

/-- `validateSshDataPayload`. -/
def validateSshDataPayload (payload : Option JVal) : Except String SessionDataData :=
  if !isObjectNonNull payload then .error "Payload must be an object"
  else
    let p := payload.getD .jnull
    match jGet p "sessionId" with
    | some (.jstr sessionId) =>
      if sessionId.length = 0 then .error "sessionId must be a non-empty string"
      else
        match jGet p "data" with
        | some (.jstr d) => .ok ⟨sessionId, d⟩
        | _ => .error "data must be a string"
    | _ => .error "sessionId must be a non-empty string"

structure ResizeData where
  sessionId : String
  cols : Int
  rows : Int
deriving DecidableEq, Repr

/-- `validateSshResizePayload`. -/
def validateSshResizePayload (payload : Option JVal) : Except String ResizeData :=
  if !isObjectNonNull payload then .error "Payload must be an object"
  else
    let p := payload.getD .jnull
    match jGet p "sessionId" with
    | some (.jstr sessionId) =>
      if sessionId.length = 0 then .error "sessionId must be a non-empty string"
      else
        match jGet p "cols" with
        | some (.jnum cols true) =>
          match jGet p "rows" with
          | some (.jnum rows true) => .ok ⟨sessionId, cols, rows⟩
          | _ => .error "rows must be a number"
        | _ => .error "cols must be a number"
    | _ => .error "sessionId must be a non-empty string"

structure CloseData where
  sessionId : String
  reason : Option String
deriving DecidableEq, Repr

/-- `validateSshClosePayload`. -/
def validateSshClosePayload (payload : Option JVal) : Except String CloseData :=
  if !isObjectNonNull payload then .error "Payload must be an object"
  else
    let p := payload.getD .jnull
    match jGet p "sessionId" with
    | some (.jstr sessionId) =>
      if sessionId.length = 0 then .error "sessionId must be a non-empty string"
      else
        match jGet p "reason" with
        | none => .ok ⟨sessionId, none⟩
        | some (.jstr r) => .ok ⟨sessionId, some r⟩
        | some _ => .error "reason must be a string when provided"
    | _ => .error "sessionId must be a non-empty string"

/-- `validateRdpSessionRequestPayload` is textually identical to the ssh one. -/
def validateRdpSessionRequestPayload : Option JVal → Except String SessionRequestData :=
  validateSshSessionRequestPayload

/-- `validateRdpSessionResponsePayload` is textually identical to the ssh one. -/
def validateRdpSessionResponsePayload : Option JVal → Except String SessionResponseData :=
  validateSshSessionResponsePayload

/-- `validateRdpDataPayload` is textually identical to the ssh one. -/
def validateRdpDataPayload : Option JVal → Except String SessionDataData :=
  validateSshDataPayload

/-- `validateRdpClosePayload` is textually identical to the ssh one. -/
def validateRdpClosePayload : Option JVal → Except String CloseData :=
  validateSshClosePayload

/-! ## Connection registry and relay state (handler.ts) -/

/-- `AgentConnectionInfo` from types/messages.ts; the transport handle is a
numeric socket id. -/
structure AgentConnectionInfo where
  socket : Nat
  deviceId : String
  deviceName : String
  ipAddress : String
  capabilities : Caps
  connectedAt : Nat
  lastHeartbeat : Nat
deriving DecidableEq, Repr

/-- `BrowserConnectionInfo`. -/
structure BrowserConnectionInfo where
  id : String
  socket : Nat
  connectedAt : Nat
deriving DecidableEq, Repr

/-- A device entry of the handler's `getDeviceList`. -/
structure DeviceEntry where
  id : String
  name : String
  ipAddress : String
  status : String
  capabilities : Caps
deriving DecidableEq, Repr

/-- A `Device` of the device registry (device-registry.ts). -/
structure Device where
  id : String
  name : String
  ipAddress : String
  status : String
  capabilities : Caps
  lastSeen : Nat
  connectedAt : Nat
deriving DecidableEq, Repr

/-- Outbound messages (`createMessageString` / `createErrorMessage` calls),
one constructor per wire type with the payload fields the code sends. -/
inductive OutMsg where
  | errorMsg (code message : String)
  | registerAck (success : Bool) (deviceId : String) (error : Option String)
  | heartbeatAck (success : Bool) (timestamp : Nat)
  | deviceList (devices : List DeviceEntry)
  | sshSessionRequest (deviceId sessionId : String)
  | sshSessionResponse (sessionId : String) (success : Bool) (error : Option String)
  | sshData (sessionId data : String)
  | sshResize (sessionId : String) (cols rows : Int)
  | sshClose (sessionId reason : String)
  | rdpSessionRequest (deviceId sessionId : String)
  | rdpSessionResponse (sessionId : String) (success : Bool) (error : Option String)
  | rdpData (sessionId data : String)
  | rdpClose (sessionId reason : String)
deriving DecidableEq, Repr

/-- Transport side effects: `socket.send(...)` and `socket.close(code,
reason)`. -/
inductive Action where
  | send (sock : Nat) (msg : OutMsg)
  | closeTransport (sock : Nat) (code : Nat) (reason : String)
deriving DecidableEq, Repr

/-- `registeredDeviceId`, the per-agent-connection closure variable, keyed by
socket. -/
def sockLookup (m : List (Nat × String)) (s : Nat) : Option String :=
  match m with
  | [] => none
  | (s', v) :: rest => if s' = s then some v else sockLookup rest s

def sockSet (m : List (Nat × String)) (s : Nat) (v : String) : List (Nat × String) :=
  match m with
  | [] => [(s, v)]
  | (s', v') :: rest => if s' = s then (s', v) :: rest else (s', v') :: sockSet rest s v

/-- The whole process-wide mutable state: the two connection maps of
handler.ts, the session manager state, the per-connection
`registeredDeviceId`s and the set of transports currently open
(`readyState === OPEN`). -/
structure RelayState where
  agentConnections : List (String × AgentConnectionInfo)
  browserConnections : List (String × BrowserConnectionInfo)
  sm : SMState
  registeredOf : List (Nat × String)
  openSockets : List Nat
deriving DecidableEq, Repr

def initRelay : RelayState := ⟨[], [], initSM, [], []⟩

/-- The browser socket lookup installed by `setSessionSocketLookups`. -/
def lookupBrowserSocket (st : RelayState) : String → Option Nat :=
  fun browserId => (mapLookup st.browserConnections browserId).map (·.socket)

/-- The agent socket lookup installed by `setSessionSocketLookups`. -/
def lookupAgentSocket (st : RelayState) : String → Option Nat :=
  fun deviceId => (mapLookup st.agentConnections deviceId).map (·.socket)

/-- `sendIfOpen` from ssh-proxy.ts / rdp-proxy.ts. -/
def sendIfOpen (st : RelayState) (sock : Nat) (m : OutMsg) : List Action :=
  if sock ∈ st.openSockets then [.send sock m] else []

/-- `getDeviceList` from handler.ts: every registered agent, always with
status `"online"`. -/
def getDeviceList (st : RelayState) : List DeviceEntry :=
  st.agentConnections.map (fun p =>
    { id := p.1, name := p.2.deviceName, ipAddress := p.2.ipAddress,
      status := "online", capabilities := p.2.capabilities })

/-- `broadcastToBrowsers`: send to every browser whose socket is open. -/
def broadcastToBrowsers (st : RelayState) (m : OutMsg) : List Action :=
  st.browserConnections.filterMap (fun p =>
    if p.2.socket ∈ st.openSockets then some (.send p.2.socket m) else none)

/-! ### Device registry (device-registry.ts) -/

def STALE_THRESHOLD_MS : Nat := 90 * 1000

def CLEANUP_INTERVAL_MS : Nat := 30 * 1000

/-- `getAllDevices`: status derived from heartbeat staleness. -/
def getAllDevices (st : RelayState) (now : Nat) : List Device :=
  st.agentConnections.map (fun p =>
    { id := p.2.deviceId, name := p.2.deviceName, ipAddress := p.2.ipAddress,
      status := if now - p.2.lastHeartbeat > STALE_THRESHOLD_MS then "offline" else "online",
      capabilities := p.2.capabilities,
      lastSeen := p.2.lastHeartbeat, connectedAt := p.2.connectedAt })

/-- `getOnlineDevices`: only the non-stale agents. -/
def getOnlineDevices (st : RelayState) (now : Nat) : List Device :=
  (st.agentConnections.filter
      (fun p => !(now - p.2.lastHeartbeat > STALE_THRESHOLD_MS))).map (fun p =>
    { id := p.2.deviceId, name := p.2.deviceName, ipAddress := p.2.ipAddress,
      status := "online", capabilities := p.2.capabilities,
      lastSeen := p.2.lastHeartbeat, connectedAt := p.2.connectedAt })

/-- `cleanupStaleConnections`: close every stale agent's transport, then
remove those entries from the map (the two-phase collect-then-delete loop is
equivalent to one filter, keys being unique). -/
def cleanupStaleConnections (st : RelayState) (now : Nat) : RelayState × List Action :=
  let stale := st.agentConnections.filter
    (fun p => now - p.2.lastHeartbeat > STALE_THRESHOLD_MS)
  let keep := st.agentConnections.filter
    (fun p => !(now - p.2.lastHeartbeat > STALE_THRESHOLD_MS))
  ({ st with agentConnections := keep },
   stale.map (fun p => .closeTransport p.2.socket 1000 "Stale connection"))

/-! ### Agent-side handlers (handler.ts) -/

/-- `handleAgentRegister`: validate, send a close to a previously registered
transport for the same device id (before inserting!), insert the new
connection, record `registeredDeviceId`, ack, and broadcast the device
list. -/
def handleAgentRegister (st : RelayState) (sock : Nat) (payload : Option JVal)
    (connectedAt now : Nat) : RelayState × List Action :=
  match validateAgentRegisterPayload payload with
  | .error e => (st, [.send sock (.registerAck false "" (some e))])
  | .ok d =>
    let closeOld : List Action :=
      match mapLookup st.agentConnections d.deviceId with
      | some existing => [.closeTransport existing.socket 1000 "Replaced by new connection"]
      | none => []
    let info : AgentConnectionInfo :=
      { socket := sock, deviceId := d.deviceId, deviceName := d.deviceName,
        ipAddress := d.ipAddress, capabilities := d.capabilities,
        connectedAt := connectedAt, lastHeartbeat := now }
    let st' := { st with
      agentConnections := mapSet st.agentConnections d.deviceId info,
      registeredOf := sockSet st.registeredOf sock d.deviceId }
    (st', closeOld ++ [.send sock (.registerAck true d.deviceId none)]
      ++ broadcastToBrowsers st' (.deviceList (getDeviceList st')))

/-- `handleAgentHeartbeat`: invalid payload is logged and dropped (no reply);
a valid one updates `lastHeartbeat` when the device is known (unknown devices
are logged and ignored) and is always acknowledged with `success: true`. -/
def handleAgentHeartbeat (st : RelayState) (sock : Nat) (payload : Option JVal)
    (now : Nat) : RelayState × List Action :=
  match validateAgentHeartbeatPayload payload with
  | .error _ => (st, [])
  | .ok deviceId =>
    let st' :=
      match mapLookup st.agentConnections deviceId with
      | some _ =>
        let ac := mapUpdate st.agentConnections deviceId
          (fun c => { c with lastHeartbeat := now })
        { st with agentConnections := ac }
      | none => st
    (st', [.send sock (.heartbeatAck true now)])

/-! ### SSH proxy handlers (ssh-proxy.ts) -/

def handleSshSessionRequestFromBrowser (st : RelayState) (payload : Option JVal)
    (browserId : String) (browserSocket : Nat) (fresh : String) (now : Nat) :
    RelayState × List Action :=
  match validateSshSessionRequestPayload payload with
  | .error e =>
    (st, sendIfOpen st browserSocket (.errorMsg "INVALID_SSH_SESSION_REQUEST" e))
  | .ok d =>
    match createSession (lookupBrowserSocket st) (lookupAgentSocket st)
        d.deviceId browserId (some d.sessionId) fresh now st.sm with
    | .error _ =>
      (st, sendIfOpen st browserSocket
        (.errorMsg "SSH_SESSION_CREATE_FAILED" "Unable to create SSH session"))
    | .ok (sess, sm') =>
      let st' := { st with sm := sm' }
      if sess.agentSocket ∈ st'.openSockets then
        (st', sendIfOpen st' sess.agentSocket (.sshSessionRequest sess.deviceId sess.id))
      else
        let st'' := { st' with sm := closeSession sess.id (some "Agent socket not open") st'.sm }
        (st'', sendIfOpen st'' browserSocket
          (.errorMsg "SSH_AGENT_UNAVAILABLE" "Agent is not available"))

def handleSshSessionResponseFromAgent (st : RelayState) (payload : Option JVal) :
    RelayState × List Action :=
  match validateSshSessionResponsePayload payload with
  | .error _ => (st, [])
  | .ok d =>
    match mapLookup st.sm.ssh.byId d.sessionId with
    | none => (st, [])
    | some sess =>
      let st' :=
        if d.success then
          let byId' := mapUpdate st.sm.ssh.byId d.sessionId
            (fun s => { s with status := .active })
          { st with sm := { st.sm with ssh := { st.sm.ssh with byId := byId' } } }
        else
          { st with sm := closeSession sess.id d.error st.sm }
      (st', sendIfOpen st' sess.browserSocket
        (.sshSessionResponse sess.id d.success d.error))

def handleSshDataFromBrowser (st : RelayState) (payload : Option JVal) :
    RelayState × List Action :=
  match validateSshDataPayload payload with
  | .error _ => (st, [])
  | .ok d =>
    match mapLookup st.sm.ssh.byId d.sessionId with
    | none => (st, [])
    | some sess => (st, sendIfOpen st sess.agentSocket (.sshData sess.id d.data))

def handleSshDataFromAgent (st : RelayState) (payload : Option JVal) :
    RelayState × List Action :=
  match validateSshDataPayload payload with
  | .error _ => (st, [])
  | .ok d =>
    match mapLookup st.sm.ssh.byId d.sessionId with
    | none => (st, [])
    | some sess => (st, sendIfOpen st sess.browserSocket (.sshData sess.id d.data))

def handleSshResizeFromBrowser (st : RelayState) (payload : Option JVal) :
    RelayState × List Action :=
  match validateSshResizePayload payload with
  | .error _ => (st, [])
  | .ok d =>
    match mapLookup st.sm.ssh.byId d.sessionId with
    | none => (st, [])
    | some sess =>
      let byId' := mapUpdate st.sm.ssh.byId d.sessionId
        (fun s => { s with terminalSizeCols := d.cols, terminalSizeRows := d.rows })
      let st' := { st with sm := { st.sm with ssh := { st.sm.ssh with byId := byId' } } }
      (st', sendIfOpen st' sess.agentSocket (.sshResize sess.id d.cols d.rows))

/-- `handleSshClose` (shared by the browser- and agent-side wrappers). -/
def handleSshClose (st : RelayState) (payload : Option JVal) (sourceIsBrowser : Bool) :
    RelayState × List Action :=
  match validateSshClosePayload payload with
  | .error _ => (st, [])
  | .ok d =>
    match mapLookup st.sm.ssh.byId d.sessionId with
    | none => (st, [])
    | some sess =>
      let reason := d.reason.getD "Session closed"
      let st' := { st with sm := closeSession sess.id (some reason) st.sm }
      let target := if sourceIsBrowser then sess.agentSocket else sess.browserSocket
      (st', sendIfOpen st' target (.sshClose sess.id reason))

def handleSshCloseFromBrowser (st : RelayState) (payload : Option JVal) :
    RelayState × List Action :=
  handleSshClose st payload true

def handleSshCloseFromAgent (st : RelayState) (payload : Option JVal) :
    RelayState × List Action :=
  handleSshClose st payload false

/-- The shared shape of the four cascading-close loops
(`closeSessionsForBrowser` / `closeSessionsForAgent` and their rdp twins):
take a snapshot of the indexed sessions, close each one through the session
manager and send a close notification to the given endpoint if its transport
is open. -/
def cascadeStep {σ : Type} (closeOne : String → SMState → SMState) (idOf : σ → String)
    (targetOf : σ → Nat) (mkMsg : String → OutMsg)
    (acc : RelayState × List Action) (sess : σ) : RelayState × List Action :=
  let st1 := { acc.1 with sm := closeOne (idOf sess) acc.1.sm }
  (st1, acc.2 ++ sendIfOpen st1 (targetOf sess) (mkMsg (idOf sess)))

def cascadeClose {σ : Type} (st : RelayState) (sessions : List σ)
    (closeOne : String → SMState → SMState) (idOf : σ → String)
    (targetOf : σ → Nat) (mkMsg : String → OutMsg) : RelayState × List Action :=
  sessions.foldl (cascadeStep closeOne idOf targetOf mkMsg) (st, [])

/-- `closeSessionsForBrowser`: close every SSH session of the browser and
notify the agent endpoints. -/
def closeSessionsForBrowser (st : RelayState) (browserId : String) :
    RelayState × List Action :=
  cascadeClose st (tripleByBrowser st.sm.ssh browserId)
    (fun id sm => closeSession id (some "Browser disconnected") sm)
    (·.id) (·.agentSocket) (fun id => .sshClose id "Browser disconnected")

/-- `closeSessionsForAgent`: close every SSH session of the device and notify
the browser endpoints. -/
def closeSessionsForAgent (st : RelayState) (deviceId : String) :
    RelayState × List Action :=
  cascadeClose st (tripleByDevice st.sm.ssh deviceId)
    (fun id sm => closeSession id (some "Agent disconnected") sm)
    (·.id) (·.browserSocket) (fun id => .sshClose id "Agent disconnected")

/-! ### RDP proxy handlers (rdp-proxy.ts) -/

def handleRdpSessionRequestFromBrowser (st : RelayState) (payload : Option JVal)
    (browserId : String) (browserSocket : Nat) (fresh : String) (now : Nat) :
    RelayState × List Action :=
  match validateRdpSessionRequestPayload payload with
  | .error e =>
    (st, sendIfOpen st browserSocket (.errorMsg "INVALID_RDP_SESSION_REQUEST" e))
  | .ok d =>
    match createRDPSession (lookupBrowserSocket st) (lookupAgentSocket st)
        d.deviceId browserId (some d.sessionId) fresh now st.sm with
    | .error _ =>
      (st, sendIfOpen st browserSocket
        (.errorMsg "RDP_SESSION_CREATE_FAILED" "Unable to create RDP session"))
    | .ok (sess, sm') =>
      let st' := { st with sm := sm' }
      if sess.agentSocket ∈ st'.openSockets then
        (st', sendIfOpen st' sess.agentSocket (.rdpSessionRequest sess.deviceId sess.id))
      else
        let st'' := { st' with sm := closeRDPSession sess.id (some "Agent socket not open") st'.sm }
        (st'', sendIfOpen st'' browserSocket
          (.errorMsg "RDP_AGENT_UNAVAILABLE" "Agent is not available"))

def handleRdpSessionResponseFromAgent (st : RelayState) (payload : Option JVal) :
    RelayState × List Action :=
  match validateRdpSessionResponsePayload payload with
  | .error _ => (st, [])
  | .ok d =>
    match mapLookup st.sm.rdp.byId d.sessionId with
    | none => (st, [])
    | some sess =>
      let st' :=
        if d.success then
          let byId' := mapUpdate st.sm.rdp.byId d.sessionId
            (fun s => { s with status := .active })
          { st with sm := { st.sm with rdp := { st.sm.rdp with byId := byId' } } }
        else
          { st with sm := closeRDPSession sess.id d.error st.sm }
      (st', sendIfOpen st' sess.browserSocket
        (.rdpSessionResponse sess.id d.success d.error))

def handleRdpDataFromBrowser (st : RelayState) (payload : Option JVal) :
    RelayState × List Action :=
  match validateRdpDataPayload payload with
  | .error _ => (st, [])
  | .ok d =>
    match mapLookup st.sm.rdp.byId d.sessionId with
    | none => (st, [])
    | some sess => (st, sendIfOpen st sess.agentSocket (.rdpData sess.id d.data))

def handleRdpDataFromAgent (st : RelayState) (payload : Option JVal) :
    RelayState × List Action :=
  match validateRdpDataPayload payload with
  | .error _ => (st, [])
  | .ok d =>
    match mapLookup st.sm.rdp.byId d.sessionId with
    | none => (st, [])
    | some sess => (st, sendIfOpen st sess.browserSocket (.rdpData sess.id d.data))

/-- `handleRdpClose` (shared by the browser- and agent-side wrappers). -/
def handleRdpClose (st : RelayState) (payload : Option JVal) (sourceIsBrowser : Bool) :
    RelayState × List Action :=
  match validateRdpClosePayload payload with
  | .error _ => (st, [])
  | .ok d =>
    match mapLookup st.sm.rdp.byId d.sessionId with
    | none => (st, [])
    | some sess =>
      let reason := d.reason.getD "Session closed"
      let st' := { st with sm := closeRDPSession sess.id (some reason) st.sm }
      let target := if sourceIsBrowser then sess.agentSocket else sess.browserSocket
      (st', sendIfOpen st' target (.rdpClose sess.id reason))

def handleRdpCloseFromBrowser (st : RelayState) (payload : Option JVal) :
    RelayState × List Action :=
  handleRdpClose st payload true

def handleRdpCloseFromAgent (st : RelayState) (payload : Option JVal) :
    RelayState × List Action :=
  handleRdpClose st payload false

/-- `closeRdpSessionsForBrowser`. -/
def closeRdpSessionsForBrowser (st : RelayState) (browserId : String) :
    RelayState × List Action :=
  cascadeClose st (tripleByBrowser st.sm.rdp browserId)
    (fun id sm => closeRDPSession id (some "Browser disconnected") sm)
    (·.id) (·.agentSocket) (fun id => .rdpClose id "Browser disconnected")

/-- `closeRdpSessionsForAgent`. -/
def closeRdpSessionsForAgent (st : RelayState) (deviceId : String) :
    RelayState × List Action :=
  cascadeClose st (tripleByDevice st.sm.rdp deviceId)
    (fun id sm => closeRDPSession id (some "Agent disconnected") sm)
    (·.id) (·.browserSocket) (fun id => .rdpClose id "Agent disconnected")

/-! ### Message dispatch and connection lifecycle (handler.ts) -/

/-- The agent-side `socket.on('message', ...)` body: parse, reply with a
typed error on envelope failure, ignore unhandled types, dispatch the rest. -/
def handleAgentMessage (st : RelayState) (sock : Nat) (raw : Option JVal)
    (connectedAt now : Nat) : RelayState × List Action :=
  match parseMessage raw with
  | .error e => (st, [.send sock (.errorMsg "INVALID_MESSAGE" e)])
  | .ok msg =>
    if !isHandledMessageType msg.type then (st, [])
    else if msg.type == "agent:register" then
      handleAgentRegister st sock msg.payload connectedAt now
    else if msg.type == "agent:heartbeat" then
      handleAgentHeartbeat st sock msg.payload now
    else if msg.type == "ssh:session:response" then
      handleSshSessionResponseFromAgent st msg.payload
    else if msg.type == "ssh:data" then
      handleSshDataFromAgent st msg.payload
    else if msg.type == "ssh:close" then
      handleSshCloseFromAgent st msg.payload
    else if msg.type == "rdp:session:response" then
      handleRdpSessionResponseFromAgent st msg.payload
    else if msg.type == "rdp:data" then
      handleRdpDataFromAgent st msg.payload
    else if msg.type == "rdp:close" then
      handleRdpCloseFromAgent st msg.payload
    else (st, [])

/-- The browser-side `socket.on('message', ...)` body. -/
def handleBrowserMessage (st : RelayState) (browserId : String) (sock : Nat)
    (raw : Option JVal) (fresh : String) (now : Nat) : RelayState × List Action :=
  match parseMessage raw with
  | .error e => (st, [.send sock (.errorMsg "INVALID_MESSAGE" e)])
  | .ok msg =>
    if !isHandledMessageType msg.type then (st, [])
    else if msg.type == "devices:list:request" then
      (st, [.send sock (.deviceList (getDeviceList st))])
    else if msg.type == "ssh:session:request" then
      handleSshSessionRequestFromBrowser st msg.payload browserId sock fresh now
    else if msg.type == "ssh:data" then
      handleSshDataFromBrowser st msg.payload
    else if msg.type == "ssh:resize" then
      handleSshResizeFromBrowser st msg.payload
    else if msg.type == "ssh:close" then
      handleSshCloseFromBrowser st msg.payload
    else if msg.type == "rdp:session:request" then
      handleRdpSessionRequestFromBrowser st msg.payload browserId sock fresh now
    else if msg.type == "rdp:data" then
      handleRdpDataFromBrowser st msg.payload
    else if msg.type == "rdp:close" then
      handleRdpCloseFromBrowser st msg.payload
    else (st, [])

/-- The agent-side `socket.on('close', ...)` body: if the connection had
registered, cascade-close its sessions, remove it from the registry and
broadcast the updated device list. -/
def handleAgentSocketClose (st : RelayState) (sock : Nat) : RelayState × List Action :=
  match sockLookup st.registeredOf sock with
  | none => (st, [])
  | some deviceId =>
    let r1 := closeSessionsForAgent st deviceId
    let r2 := closeRdpSessionsForAgent r1.1 deviceId
    let st3 := { r2.1 with agentConnections := mapDelete r2.1.agentConnections deviceId }
    (st3, r1.2 ++ r2.2 ++ broadcastToBrowsers st3 (.deviceList (getDeviceList st3)))

/-- The browser-side `socket.on('close', ...)` body. -/
def handleBrowserSocketClose (st : RelayState) (browserId : String) :
    RelayState × List Action :=
  let r1 := closeSessionsForBrowser st browserId
  let r2 := closeRdpSessionsForBrowser r1.1 browserId
  ({ r2.1 with browserConnections := mapDelete r2.1.browserConnections browserId },
   r1.2 ++ r2.2)

/-- Adding a socket to the set of open transports. -/
def sockAdd (l : List Nat) (x : Nat) : List Nat :=
  if x ∈ l then l else l ++ [x]

/-- The externally triggered events of the relay process: connection
establishment, message delivery, transport closure, and the periodic
staleness sweep.  Events carry the environment values the closures read
(`Date.now()`, `randomUUID()`). -/
inductive REvent where
  | agentConnect (sock : Nat)
  | agentMsg (sock : Nat) (raw : Option JVal) (connectedAt now : Nat)
  | agentClose (sock : Nat)
  | browserConnect (id : String) (sock : Nat) (connectedAt : Nat)
  | browserMsg (browserId : String) (sock : Nat) (raw : Option JVal)
      (fresh : String) (now : Nat)
  | browserClose (browserId : String) (sock : Nat)
  | sweep (now : Nat)

/-- One event step of the relay. -/
def stepRelay (st : RelayState) : REvent → RelayState × List Action
  | .agentConnect sock =>
    ({ st with openSockets := sockAdd st.openSockets sock }, [])
  | .agentMsg sock raw connectedAt now =>
    handleAgentMessage st sock raw connectedAt now
  | .agentClose sock =>
    handleAgentSocketClose
      { st with openSockets := st.openSockets.filter (fun s => s ≠ sock) } sock
  | .browserConnect id sock connectedAt =>
    ({ st with
        openSockets := sockAdd st.openSockets sock,
        browserConnections := mapSet st.browserConnections id ⟨id, sock, connectedAt⟩ }, [])
  | .browserMsg browserId sock raw fresh now =>
    handleBrowserMessage st browserId sock raw fresh now
  | .browserClose browserId sock =>
    handleBrowserSocketClose
      { st with openSockets := st.openSockets.filter (fun s => s ≠ sock) } browserId
  | .sweep now => cleanupStaleConnections st now

/-- Run a sequence of events from a state. -/
def runRelay (st : RelayState) : List REvent → RelayState
  | [] => st
  | e :: es => runRelay (stepRelay st e).1 es

/-! ## Claim C10: heartbeat acknowledgement -/

/-- C10: a structurally valid `agent:heartbeat` always gets an
`agent:heartbeat:ack` with `success: true` back on the sending socket, even
for a deviceId unknown to the registry (whose `lastHeartbeat` is then not
updated, the state staying untouched); an invalid heartbeat payload produces
no reply at all. -/
theorem heartbeat_always_acked (st : RelayState) (sock : Nat) (payload : Option JVal)
    (now : Nat) :
    (∀ deviceId, validateAgentHeartbeatPayload payload = .ok deviceId →
      (handleAgentHeartbeat st sock payload now).2 = [.send sock (.heartbeatAck true now)] ∧
      (mapLookup st.agentConnections deviceId = none →
        (handleAgentHeartbeat st sock payload now).1 = st)) ∧
    (∀ e, validateAgentHeartbeatPayload payload = .error e →
      handleAgentHeartbeat st sock payload now = (st, [])) := by
  constructor
  · intro d hv
    unfold handleAgentHeartbeat
    rw [hv]
    refine ⟨rfl, ?_⟩
    intro hnone
    dsimp only
    rw [hnone]
  · intro e hv
    unfold handleAgentHeartbeat
    rw [hv]

/-- Witness: a heartbeat naming a device that was never registered is still
acknowledged with success, and the state is unchanged. -/
theorem heartbeat_always_acked_witness :
    (handleAgentHeartbeat initRelay 3
        (some (.jobj [("deviceId", .jstr "ghost")])) 42).2
      = [.send 3 (.heartbeatAck true 42)] ∧
    (handleAgentHeartbeat initRelay 3
        (some (.jobj [("deviceId", .jstr "ghost")])) 42).1 = initRelay := by
  have h := (heartbeat_always_acked initRelay 3
    (some (.jobj [("deviceId", .jstr "ghost")])) 42).1 "ghost" (by rfl)
  exact ⟨h.1, h.2 (by rfl)⟩

/-! ## Claim C8: close forwarding -/

/-- C8: a close for an existing session closes it via the session manager and
sends exactly one close notification — carrying the supplied reason, or
"Session closed" when omitted — to the opposite endpoint (best-effort: only
if that transport is open), for both directions and both session kinds. -/
theorem session_close_forwards_to_opposite_endpoint
    (st : RelayState) (payload : Option JVal) (sid : String) (reasonOpt : Option String)
    (hv : validateSshClosePayload payload = .ok ⟨sid, reasonOpt⟩) :
    (∀ sess : SSHSession, mapLookup st.sm.ssh.byId sid = some sess →
      handleSshCloseFromBrowser st payload =
        ({ st with sm := closeSession sess.id (some (reasonOpt.getD "Session closed")) st.sm },
         sendIfOpen st sess.agentSocket (.sshClose sess.id (reasonOpt.getD "Session closed"))) ∧
      handleSshCloseFromAgent st payload =
        ({ st with sm := closeSession sess.id (some (reasonOpt.getD "Session closed")) st.sm },
         sendIfOpen st sess.browserSocket (.sshClose sess.id (reasonOpt.getD "Session closed")))) ∧
    (∀ sess : RDPSession, mapLookup st.sm.rdp.byId sid = some sess →
      handleRdpCloseFromBrowser st payload =
        ({ st with sm := closeRDPSession sess.id (some (reasonOpt.getD "Session closed")) st.sm },
         sendIfOpen st sess.agentSocket (.rdpClose sess.id (reasonOpt.getD "Session closed"))) ∧
      handleRdpCloseFromAgent st payload =
        ({ st with sm := closeRDPSession sess.id (some (reasonOpt.getD "Session closed")) st.sm },
         sendIfOpen st sess.browserSocket (.rdpClose sess.id (reasonOpt.getD "Session closed")))) := by
  constructor
  · intro sess hlk
    constructor
    · unfold handleSshCloseFromBrowser handleSshClose
      rw [hv]
      dsimp only
      rw [hlk]
      rfl
    · unfold handleSshCloseFromAgent handleSshClose
      rw [hv]
      dsimp only
      rw [hlk]
      rfl
  · intro sess hlk
    have hv2 : validateRdpClosePayload payload = .ok ⟨sid, reasonOpt⟩ := hv
    constructor
    · unfold handleRdpCloseFromBrowser handleRdpClose
      rw [hv2]
      dsimp only
      rw [hlk]
      rfl
    · unfold handleRdpCloseFromAgent handleRdpClose
      rw [hv2]
      dsimp only
      rw [hlk]
      rfl

/-- A concrete state with one live SSH session "s1" between browser socket 7
and agent socket 1, both transports open. -/
def sampleCloseState : RelayState :=
  { initRelay with
    sm := applySM initSM (.createSSH (fun _ => some 7) (fun _ => some 1) "d" "b"
      (some "s1") "f" 0),
    openSockets := [1, 7] }

/-- Witness: closing "s1" from the browser side (no reason given) closes the
session and sends exactly one `ssh:close` with the default reason "Session
closed" to the agent socket. -/
theorem session_close_forwards_to_opposite_endpoint_witness :
    handleSshCloseFromBrowser sampleCloseState (some (.jobj [("sessionId", .jstr "s1")])) =
      ({ sampleCloseState with
          sm := closeSession "s1" (some "Session closed") sampleCloseState.sm },
       [.send 1 (.sshClose "s1" "Session closed")]) := by
  have h := ((session_close_forwards_to_opposite_endpoint sampleCloseState
      (some (.jobj [("sessionId", .jstr "s1")])) "s1" none rfl).1
      ⟨"s1", "d", 7, 1, .connecting, 0, 80, 24⟩ rfl).1
  rw [h]
  decide

/-! ## Claim C5: staleness reporting and the sweep -/

/-- C5 (amended): the device registry's staleness logic behaves as claimed —
`getAllDevices` reports a stale agent with status "offline", only non-stale
agents ever appear in `getOnlineDevices` (all with status "online"), and the
sweep closes every stale agent's transport and removes its entry — but the
WebSocket `devices:list:response` assembled by the handler's own
`getDeviceList` reports every registered agent as "online" regardless of
heartbeat age. -/
theorem staleness_registry_and_sweep :
    (∀ (st : RelayState) (now : Nat) (d : String) (c : AgentConnectionInfo),
      (d, c) ∈ st.agentConnections → now - c.lastHeartbeat > STALE_THRESHOLD_MS →
      (⟨c.deviceId, c.deviceName, c.ipAddress, "offline", c.capabilities,
        c.lastHeartbeat, c.connectedAt⟩ : Device) ∈ getAllDevices st now ∧
      Action.closeTransport c.socket 1000 "Stale connection"
        ∈ (cleanupStaleConnections st now).2 ∧
      (d, c) ∉ (cleanupStaleConnections st now).1.agentConnections) ∧
    (∀ (st : RelayState) (now : Nat) (dev : Device), dev ∈ getOnlineDevices st now →
      dev.status = "online" ∧
      ∃ p ∈ st.agentConnections, ¬(now - p.2.lastHeartbeat > STALE_THRESHOLD_MS) ∧
        dev.id = p.2.deviceId) ∧
    (∀ (st : RelayState) (e : DeviceEntry), e ∈ getDeviceList st → e.status = "online") := by
  refine ⟨?_, ?_, ?_⟩
  · intro st now d c hmem hstale
    refine ⟨?_, ?_, ?_⟩
    · unfold getAllDevices
      rw [List.mem_map]
      refine ⟨(d, c), hmem, ?_⟩
      simp only [if_pos hstale]
    · unfold cleanupStaleConnections
      dsimp only
      rw [List.mem_map]
      refine ⟨(d, c), ?_, rfl⟩
      rw [List.mem_filter]
      exact ⟨hmem, by simpa using hstale⟩
    · unfold cleanupStaleConnections
      dsimp only
      rw [List.mem_filter]
      rintro ⟨-, hkeep⟩
      simp only [Bool.not_eq_true', decide_eq_false_iff_not] at hkeep
      exact hkeep hstale
  · intro st now dev hdev
    unfold getOnlineDevices at hdev
    rw [List.mem_map] at hdev
    obtain ⟨p, hp, hpe⟩ := hdev
    rw [List.mem_filter] at hp
    refine ⟨by rw [← hpe], p, hp.1, ?_, by rw [← hpe]⟩
    have := hp.2
    simpa using this
  · intro st e he
    unfold getDeviceList at he
    rw [List.mem_map] at he
    obtain ⟨p, -, hpe⟩ := he
    rw [← hpe]

/-- Witness: a concrete agent whose heartbeat is 200 s old is reported
offline by `getAllDevices`, swept (transport closed, entry removed), and
absent from `getOnlineDevices`. -/
theorem staleness_registry_and_sweep_witness :
    (⟨"pi-1", "Pi", "10.0.0.1", "offline", ⟨true, none⟩, 0, 0⟩ : Device) ∈
      getAllDevices
        { initRelay with agentConnections :=
            [("pi-1", ⟨1, "pi-1", "Pi", "10.0.0.1", ⟨true, none⟩, 0, 0⟩)] } 200000 ∧
    Action.closeTransport 1 1000 "Stale connection" ∈
      (cleanupStaleConnections
        { initRelay with agentConnections :=
            [("pi-1", ⟨1, "pi-1", "Pi", "10.0.0.1", ⟨true, none⟩, 0, 0⟩)] } 200000).2 := by
  have h := (staleness_registry_and_sweep.1
    { initRelay with agentConnections :=
        [("pi-1", ⟨1, "pi-1", "Pi", "10.0.0.1", ⟨true, none⟩, 0, 0⟩)] }
    200000 "pi-1" ⟨1, "pi-1", "Pi", "10.0.0.1", ⟨true, none⟩, 0, 0⟩
    (by decide) (by decide))
  exact ⟨h.1, h.2.1⟩

/-- A register message for device "pi-1" (used by concrete executions). -/
def sampleRegisterRaw : Option JVal :=
  some (.jobj [("type", .jstr "agent:register"), ("timestamp", .jnum 0 true),
    ("payload", .jobj [("deviceId", .jstr "pi-1"), ("deviceName", .jstr "Pi"),
      ("ipAddress", .jstr "10.0.0.1"),
      ("capabilities", .jobj [("ssh", .jbool true)])])])

/-- A `devices:list:request` message. -/
def sampleListRequestRaw : Option JVal :=
  some (.jobj [("type", .jstr "devices:list:request"), ("timestamp", .jnum 200000 true)])

/-- Counterexample to C5 as stated: an agent registered (heartbeat stamp 0)
and never heard from again is stale 200 s later, yet the very next
`devices:list:request` from a browser is answered with that device marked
"online" — the WebSocket listing ignores staleness (only the registry's
`getAllDevices`, used for stats, would report "offline"). -/
theorem stale_agent_listed_online_counterexample :
    (mapLookup (runRelay initRelay
        [.agentConnect 1, .agentMsg 1 sampleRegisterRaw 0 0,
         .browserConnect "b" 7 0]).agentConnections "pi-1").map
        (fun c => c.lastHeartbeat) = some 0 ∧
    (stepRelay (runRelay initRelay
        [.agentConnect 1, .agentMsg 1 sampleRegisterRaw 0 0,
         .browserConnect "b" 7 0])
      (.browserMsg "b" 7 sampleListRequestRaw "f" 200000)).2
      = [.send 7 (.deviceList [⟨"pi-1", "Pi", "10.0.0.1", "online", ⟨true, none⟩⟩])] ∧
    (getAllDevices (runRelay initRelay
        [.agentConnect 1, .agentMsg 1 sampleRegisterRaw 0 0,
         .browserConnect "b" 7 0]) 200000).map (fun d => d.status) = ["offline"] := by
  decide

/-! ## Claim C7: structurally invalid input -/

/-- C7 (amended): input that is unparsable or envelope-invalid is answered
with a typed `error` message and dropped (first two conjuncts).  A wrong
payload shape for a known message type is always dropped before any
session/relay logic runs — the state is unchanged — but a reply is sent only
for session requests (typed `error`) and for `agent:register` (a failure
ack); heartbeat, data, resize, close and session-response shape failures are
logged and dropped with no reply. -/
theorem invalid_message_never_reaches_relay (st : RelayState) :
    (∀ (sock : Nat) (raw : Option JVal) (connectedAt now : Nat) (e : String),
      parseMessage raw = .error e →
      handleAgentMessage st sock raw connectedAt now
        = (st, [.send sock (.errorMsg "INVALID_MESSAGE" e)])) ∧
    (∀ (browserId : String) (sock : Nat) (raw : Option JVal) (fresh : String)
        (now : Nat) (e : String),
      parseMessage raw = .error e →
      handleBrowserMessage st browserId sock raw fresh now
        = (st, [.send sock (.errorMsg "INVALID_MESSAGE" e)])) ∧
    (∀ (browserId : String) (sock : Nat) (raw : Option JVal) (fresh : String)
        (now : Nat) (msg : ParsedMessage) (e : String), parseMessage raw = .ok msg →
      (msg.type = "ssh:data" → validateSshDataPayload msg.payload = .error e →
        handleBrowserMessage st browserId sock raw fresh now = (st, [])) ∧
      (msg.type = "ssh:resize" → validateSshResizePayload msg.payload = .error e →
        handleBrowserMessage st browserId sock raw fresh now = (st, [])) ∧
      (msg.type = "ssh:close" → validateSshClosePayload msg.payload = .error e →
        handleBrowserMessage st browserId sock raw fresh now = (st, [])) ∧
      (msg.type = "rdp:data" → validateRdpDataPayload msg.payload = .error e →
        handleBrowserMessage st browserId sock raw fresh now = (st, [])) ∧
      (msg.type = "rdp:close" → validateRdpClosePayload msg.payload = .error e →
        handleBrowserMessage st browserId sock raw fresh now = (st, [])) ∧
      (msg.type = "ssh:session:request" →
        validateSshSessionRequestPayload msg.payload = .error e →
        handleBrowserMessage st browserId sock raw fresh now
          = (st, sendIfOpen st sock (.errorMsg "INVALID_SSH_SESSION_REQUEST" e))) ∧
      (msg.type = "rdp:session:request" →
        validateRdpSessionRequestPayload msg.payload = .error e →
        handleBrowserMessage st browserId sock raw fresh now
          = (st, sendIfOpen st sock (.errorMsg "INVALID_RDP_SESSION_REQUEST" e)))) ∧
    (∀ (sock : Nat) (raw : Option JVal) (connectedAt now : Nat)
        (msg : ParsedMessage) (e : String), parseMessage raw = .ok msg →
      (msg.type = "agent:heartbeat" → validateAgentHeartbeatPayload msg.payload = .error e →
        handleAgentMessage st sock raw connectedAt now = (st, [])) ∧
      (msg.type = "ssh:session:response" →
        validateSshSessionResponsePayload msg.payload = .error e →
        handleAgentMessage st sock raw connectedAt now = (st, [])) ∧
      (msg.type = "ssh:data" → validateSshDataPayload msg.payload = .error e →
        handleAgentMessage st sock raw connectedAt now = (st, [])) ∧
      (msg.type = "ssh:close" → validateSshClosePayload msg.payload = .error e →
        handleAgentMessage st sock raw connectedAt now = (st, [])) ∧
      (msg.type = "rdp:session:response" →
        validateRdpSessionResponsePayload msg.payload = .error e →
        handleAgentMessage st sock raw connectedAt now = (st, [])) ∧
      (msg.type = "rdp:data" → validateRdpDataPayload msg.payload = .error e →
        handleAgentMessage st sock raw connectedAt now = (st, [])) ∧
      (msg.type = "rdp:close" → validateRdpClosePayload msg.payload = .error e →
        handleAgentMessage st sock raw connectedAt now = (st, [])) ∧
      (msg.type = "agent:register" → validateAgentRegisterPayload msg.payload = .error e →
        handleAgentMessage st sock raw connectedAt now
          = (st, [.send sock (.registerAck false "" (some e))]))) := by
  refine ⟨?_, ?_, ?_, ?_⟩
  · intro sock raw connectedAt now e hparse
    unfold handleAgentMessage
    rw [hparse]
  · intro browserId sock raw fresh now e hparse
    unfold handleBrowserMessage
    rw [hparse]
  · intro browserId sock raw fresh now msg e hparse
    refine ⟨?_, ?_, ?_, ?_, ?_, ?_, ?_⟩ <;> intro ht hv <;>
      unfold handleBrowserMessage <;> rw [hparse] <;> dsimp only <;> rw [ht]
    · simp [isHandledMessageType, handleSshDataFromBrowser, hv]
    · simp [isHandledMessageType, handleSshResizeFromBrowser, hv]
    · simp [isHandledMessageType, handleSshCloseFromBrowser, handleSshClose, hv]
    · simp [isHandledMessageType, handleRdpDataFromBrowser, hv]
    · simp [isHandledMessageType, handleRdpCloseFromBrowser, handleRdpClose, hv]
    · simp [isHandledMessageType, handleSshSessionRequestFromBrowser, hv]
    · simp [isHandledMessageType, handleRdpSessionRequestFromBrowser, hv]
  · intro sock raw connectedAt now msg e hparse
    refine ⟨?_, ?_, ?_, ?_, ?_, ?_, ?_, ?_⟩ <;> intro ht hv <;>
      unfold handleAgentMessage <;> rw [hparse] <;> dsimp only <;> rw [ht]
    · simp [isHandledMessageType, handleAgentHeartbeat, hv]
    · simp [isHandledMessageType, handleSshSessionResponseFromAgent, hv]
    · simp [isHandledMessageType, handleSshDataFromAgent, hv]
    · simp [isHandledMessageType, handleSshCloseFromAgent, handleSshClose, hv]
    · simp [isHandledMessageType, handleRdpSessionResponseFromAgent, hv]
    · simp [isHandledMessageType, handleRdpDataFromAgent, hv]
    · simp [isHandledMessageType, handleRdpCloseFromAgent, handleRdpClose, hv]
    · simp [isHandledMessageType, handleAgentRegister, hv]

/-- Witness: an unparsable frame is answered with `error INVALID_MESSAGE`,
and a browser `ssh:resize` whose payload lacks `cols`/`rows` is dropped with
the state unchanged. -/
theorem invalid_message_never_reaches_relay_witness :
    handleAgentMessage initRelay 3 none 0 0
      = (initRelay, [.send 3 (.errorMsg "INVALID_MESSAGE" "Failed to parse JSON")]) ∧
    handleBrowserMessage initRelay "b" 7
      (some (.jobj [("type", .jstr "ssh:resize"), ("timestamp", .jnum 0 true),
        ("payload", .jobj [("sessionId", .jstr "s1")])])) "f" 0
      = (initRelay, []) := by
  refine ⟨(invalid_message_never_reaches_relay initRelay).1 3 none 0 0
    "Failed to parse JSON" rfl, ?_⟩
  exact (((invalid_message_never_reaches_relay initRelay).2.2.1 "b" 7
    (some (.jobj [("type", .jstr "ssh:resize"), ("timestamp", .jnum 0 true),
      ("payload", .jobj [("sessionId", .jstr "s1")])])) "f" 0
    ⟨"ssh:resize", 0, some (.jobj [("sessionId", .jstr "s1")])⟩
    "cols must be a number" rfl).2.1 rfl rfl)

/-- Counterexample to C7 as stated: an `ssh:data` message from a browser
whose payload has the wrong shape (no `data` field) is dropped, but no typed
error message is sent back to the originating connection — the action list
is empty even though the browser's socket is open. -/
theorem invalid_payload_no_error_reply_counterexample :
    handleBrowserMessage { initRelay with openSockets := [7] } "b" 7
      (some (.jobj [("type", .jstr "ssh:data"), ("timestamp", .jnum 0 true),
        ("payload", .jobj [("sessionId", .jstr "s1")])])) "f" 0
      = ({ initRelay with openSockets := [7] }, []) := by
  decide

/-! ## Claim C6: cascading cleanup -/

theorem mapDelete_lookup_self {α : Type} (m : List (String × α)) (k : String) :
    mapLookup (mapDelete m k) k = none := by
  rw [mapLookup_eq_none_iff, mapDelete_keys, List.mem_filter]
  rintro ⟨-, hk⟩
  simp at hk

theorem mapDelete_lookup_none {α : Type} {m : List (String × α)} {k x : String}
    (h : mapLookup m x = none) : mapLookup (mapDelete m k) x = none := by
  rw [mapLookup_eq_none_iff] at h ⊢
  rw [mapDelete_keys, List.mem_filter]
  rintro ⟨hx, -⟩
  exact h hx

theorem tripleClose_lookup_self {σ : Type} (t : SessionTriple σ) (sid : String) :
    mapLookup (tripleClose t sid).byId sid = none := by
  unfold tripleClose
  split
  · assumption
  · exact mapDelete_lookup_self t.byId sid

theorem tripleClose_lookup_none {σ : Type} (t : SessionTriple σ) (sid x : String)
    (h : mapLookup t.byId x = none) : mapLookup (tripleClose t sid).byId x = none := by
  unfold tripleClose
  split
  · exact h
  · exact mapDelete_lookup_none h

/-- The cascading fold only touches `sm`; the other state fields and the
open-socket set are unchanged, and the emitted actions are exactly one
best-effort close notification per snapshot session (openness judged against
the unchanged socket set). -/
theorem cascadeFold_spec {σ : Type} (closeOne : String → SMState → SMState)
    (idOf : σ → String) (targetOf : σ → Nat) (mkMsg : String → OutMsg) :
    ∀ (l : List σ) (st : RelayState) (acc : List Action),
    ((l.foldl (cascadeStep closeOne idOf targetOf mkMsg) (st, acc)).1.openSockets
        = st.openSockets) ∧
    ((l.foldl (cascadeStep closeOne idOf targetOf mkMsg) (st, acc)).1.agentConnections
        = st.agentConnections) ∧
    ((l.foldl (cascadeStep closeOne idOf targetOf mkMsg) (st, acc)).1.browserConnections
        = st.browserConnections) ∧
    ((l.foldl (cascadeStep closeOne idOf targetOf mkMsg) (st, acc)).1.registeredOf
        = st.registeredOf) ∧
    ((l.foldl (cascadeStep closeOne idOf targetOf mkMsg) (st, acc)).2
        = acc ++ l.filterMap (fun sess =>
            if targetOf sess ∈ st.openSockets
            then some (.send (targetOf sess) (mkMsg (idOf sess))) else none)) := by
  intro l
  induction l with
  | nil => intro st acc; simp
  | cons sess l ih =>
    intro st acc
    rw [List.foldl_cons]
    have hstep : cascadeStep closeOne idOf targetOf mkMsg (st, acc) sess =
        ({ st with sm := closeOne (idOf sess) st.sm },
         acc ++ (if targetOf sess ∈ st.openSockets
           then [Action.send (targetOf sess) (mkMsg (idOf sess))] else [])) := rfl
    rw [hstep]
    obtain ⟨h1, h2, h3, h4, h5⟩ := ih { st with sm := closeOne (idOf sess) st.sm }
      (acc ++ (if targetOf sess ∈ st.openSockets
        then [Action.send (targetOf sess) (mkMsg (idOf sess))] else []))
    refine ⟨h1, h2, h3, h4, ?_⟩
    rw [h5, List.filterMap_cons]
    by_cases hopen : targetOf sess ∈ st.openSockets
    · simp only [hopen, if_pos]
      simp [List.append_assoc]
    · simp only [hopen, if_neg, if_false]
      simp [hopen]

/-- A property of the session-manager state, preserved by `closeOne`, is
preserved by the whole cascading fold. -/
theorem cascadeFold_P {σ : Type} (closeOne : String → SMState → SMState)
    (idOf : σ → String) (targetOf : σ → Nat) (mkMsg : String → OutMsg)
    (P : SMState → Prop) (hmono : ∀ sm id, P sm → P (closeOne id sm)) :
    ∀ (l : List σ) (st : RelayState) (acc : List Action), P st.sm →
    P ((l.foldl (cascadeStep closeOne idOf targetOf mkMsg) (st, acc)).1).sm := by
  intro l
  induction l with
  | nil => intro st acc h; exact h
  | cons sess l ih =>
    intro st acc h
    rw [List.foldl_cons]
    exact ih _ _ (hmono st.sm (idOf sess) h)

/-- Every session of the snapshot ends up satisfying the per-id
postcondition of `closeOne` (e.g. absence from the by-id map). -/
theorem cascadeFold_closes {σ : Type} (closeOne : String → SMState → SMState)
    (idOf : σ → String) (targetOf : σ → Nat) (mkMsg : String → OutMsg)
    (P : SMState → String → Prop)
    (hself : ∀ sm x, P (closeOne x sm) x)
    (hmono : ∀ sm id x, P sm x → P (closeOne id sm) x) :
    ∀ (l : List σ) (st : RelayState) (acc : List Action), ∀ sess ∈ l,
    P ((l.foldl (cascadeStep closeOne idOf targetOf mkMsg) (st, acc)).1).sm (idOf sess) := by
  intro l
  induction l with
  | nil => intro st acc sess h; exact absurd h (List.not_mem_nil sess)
  | cons s l ih =>
    intro st acc sess hmem
    rw [List.foldl_cons]
    rcases List.mem_cons.mp hmem with rfl | hmem2
    · exact cascadeFold_P closeOne idOf targetOf mkMsg (fun sm => P sm (idOf sess))
        (fun sm id h => hmono sm id (idOf sess) h) l _ _ (hself st.sm (idOf sess))
    · exact ih _ _ sess hmem2

theorem closeSessionsForBrowser_spec (st : RelayState) (bid : String) :
    ∀ sess ∈ tripleByBrowser st.sm.ssh bid,
      mapLookup (closeSessionsForBrowser st bid).1.sm.ssh.byId sess.id = none ∧
      (sess.agentSocket ∈ st.openSockets →
        Action.send sess.agentSocket (.sshClose sess.id "Browser disconnected")
          ∈ (closeSessionsForBrowser st bid).2) := by
  intro sess hmem
  constructor
  · exact cascadeFold_closes
      (fun id sm => closeSession id (some "Browser disconnected") sm)
      (·.id) (·.agentSocket) (fun id => .sshClose id "Browser disconnected")
      (fun sm x => mapLookup sm.ssh.byId x = none)
      (fun sm x => tripleClose_lookup_self sm.ssh x)
      (fun sm id x hx => tripleClose_lookup_none sm.ssh id x hx)
      (tripleByBrowser st.sm.ssh bid) st [] sess hmem
  · intro hopen
    have h := (cascadeFold_spec
      (fun id sm => closeSession id (some "Browser disconnected") sm)
      (·.id) (·.agentSocket) (fun id => .sshClose id "Browser disconnected")
      (tripleByBrowser st.sm.ssh bid) st []).2.2.2.2
    unfold closeSessionsForBrowser cascadeClose
    rw [h, List.nil_append]
    exact List.mem_filterMap.mpr ⟨sess, hmem, by rw [if_pos hopen]⟩

theorem closeRdpSessionsForBrowser_spec (st : RelayState) (bid : String) :
    ∀ sess ∈ tripleByBrowser st.sm.rdp bid,
      mapLookup (closeRdpSessionsForBrowser st bid).1.sm.rdp.byId sess.id = none ∧
      (sess.agentSocket ∈ st.openSockets →
        Action.send sess.agentSocket (.rdpClose sess.id "Browser disconnected")
          ∈ (closeRdpSessionsForBrowser st bid).2) := by
  intro sess hmem
  constructor
  · exact cascadeFold_closes
      (fun id sm => closeRDPSession id (some "Browser disconnected") sm)
      (·.id) (·.agentSocket) (fun id => .rdpClose id "Browser disconnected")
      (fun sm x => mapLookup sm.rdp.byId x = none)
      (fun sm x => tripleClose_lookup_self sm.rdp x)
      (fun sm id x hx => tripleClose_lookup_none sm.rdp id x hx)
      (tripleByBrowser st.sm.rdp bid) st [] sess hmem
  · intro hopen
    have h := (cascadeFold_spec
      (fun id sm => closeRDPSession id (some "Browser disconnected") sm)
      (·.id) (·.agentSocket) (fun id => .rdpClose id "Browser disconnected")
      (tripleByBrowser st.sm.rdp bid) st []).2.2.2.2
    unfold closeRdpSessionsForBrowser cascadeClose
    rw [h, List.nil_append]
    exact List.mem_filterMap.mpr ⟨sess, hmem, by rw [if_pos hopen]⟩

theorem closeSessionsForAgent_spec (st : RelayState) (did : String) :
    ∀ sess ∈ tripleByDevice st.sm.ssh did,
      mapLookup (closeSessionsForAgent st did).1.sm.ssh.byId sess.id = none ∧
      (sess.browserSocket ∈ st.openSockets →
        Action.send sess.browserSocket (.sshClose sess.id "Agent disconnected")
          ∈ (closeSessionsForAgent st did).2) := by
  intro sess hmem
  constructor
  · exact cascadeFold_closes
      (fun id sm => closeSession id (some "Agent disconnected") sm)
      (·.id) (·.browserSocket) (fun id => .sshClose id "Agent disconnected")
      (fun sm x => mapLookup sm.ssh.byId x = none)
      (fun sm x => tripleClose_lookup_self sm.ssh x)
      (fun sm id x hx => tripleClose_lookup_none sm.ssh id x hx)
      (tripleByDevice st.sm.ssh did) st [] sess hmem
  · intro hopen
    have h := (cascadeFold_spec
      (fun id sm => closeSession id (some "Agent disconnected") sm)
      (·.id) (·.browserSocket) (fun id => .sshClose id "Agent disconnected")
      (tripleByDevice st.sm.ssh did) st []).2.2.2.2
    unfold closeSessionsForAgent cascadeClose
    rw [h, List.nil_append]
    exact List.mem_filterMap.mpr ⟨sess, hmem, by rw [if_pos hopen]⟩

theorem closeRdpSessionsForAgent_spec (st : RelayState) (did : String) :
    ∀ sess ∈ tripleByDevice st.sm.rdp did,
      mapLookup (closeRdpSessionsForAgent st did).1.sm.rdp.byId sess.id = none ∧
      (sess.browserSocket ∈ st.openSockets →
        Action.send sess.browserSocket (.rdpClose sess.id "Agent disconnected")
          ∈ (closeRdpSessionsForAgent st did).2) := by
  intro sess hmem
  constructor
  · exact cascadeFold_closes
      (fun id sm => closeRDPSession id (some "Agent disconnected") sm)
      (·.id) (·.browserSocket) (fun id => .rdpClose id "Agent disconnected")
      (fun sm x => mapLookup sm.rdp.byId x = none)
      (fun sm x => tripleClose_lookup_self sm.rdp x)
      (fun sm id x hx => tripleClose_lookup_none sm.rdp id x hx)
      (tripleByDevice st.sm.rdp did) st [] sess hmem
  · intro hopen
    have h := (cascadeFold_spec
      (fun id sm => closeRDPSession id (some "Agent disconnected") sm)
      (·.id) (·.browserSocket) (fun id => .rdpClose id "Agent disconnected")
      (tripleByDevice st.sm.rdp did) st []).2.2.2.2
    unfold closeRdpSessionsForAgent cascadeClose
    rw [h, List.nil_append]
    exact List.mem_filterMap.mpr ⟨sess, hmem, by rw [if_pos hopen]⟩

theorem browserClose_closes_all (st : RelayState) (bid : String) (sock : Nat) :
    (∀ sess ∈ tripleByBrowser st.sm.ssh bid,
      mapLookup ((stepRelay st (.browserClose bid sock)).1).sm.ssh.byId sess.id = none) ∧
    (∀ sess ∈ tripleByBrowser st.sm.rdp bid,
      mapLookup ((stepRelay st (.browserClose bid sock)).1).sm.rdp.byId sess.id = none) := by
  set st0 : RelayState :=
    { st with openSockets := st.openSockets.filter (fun s => s ≠ sock) } with hst0
  constructor
  · intro sess hmem
    have h1 := (closeSessionsForBrowser_spec st0 bid sess hmem).1
    exact cascadeFold_P
      (fun id sm => closeRDPSession id (some "Browser disconnected") sm)
      (·.id) (·.agentSocket) (fun id => .rdpClose id "Browser disconnected")
      (fun sm => mapLookup sm.ssh.byId sess.id = none)
      (fun sm id h => h)
      (tripleByBrowser (closeSessionsForBrowser st0 bid).1.sm.rdp bid)
      (closeSessionsForBrowser st0 bid).1 [] h1
  · intro sess hmem
    have hpres : (closeSessionsForBrowser st0 bid).1.sm.rdp = st0.sm.rdp :=
      cascadeFold_P
        (fun id sm => closeSession id (some "Browser disconnected") sm)
        (fun s : SSHSession => s.id) (fun s : SSHSession => s.agentSocket)
        (fun id => .sshClose id "Browser disconnected")
        (fun sm => sm.rdp = st0.sm.rdp)
        (fun sm id h => h)
        (tripleByBrowser st0.sm.ssh bid) st0 [] rfl
    have hmem2 : sess ∈ tripleByBrowser (closeSessionsForBrowser st0 bid).1.sm.rdp bid := by
      rw [hpres]; exact hmem
    exact (closeRdpSessionsForBrowser_spec (closeSessionsForBrowser st0 bid).1 bid
      sess hmem2).1

theorem agentClose_closes_all (st : RelayState) (did : String) (sock : Nat)
    (hreg : sockLookup st.registeredOf sock = some did) :
    (∀ sess ∈ tripleByDevice st.sm.ssh did,
      mapLookup ((stepRelay st (.agentClose sock)).1).sm.ssh.byId sess.id = none) ∧
    (∀ sess ∈ tripleByDevice st.sm.rdp did,
      mapLookup ((stepRelay st (.agentClose sock)).1).sm.rdp.byId sess.id = none) := by
  set st0 : RelayState :=
    { st with openSockets := st.openSockets.filter (fun s => s ≠ sock) } with hst0
  have hstep : stepRelay st (.agentClose sock) = handleAgentSocketClose st0 sock := rfl
  have hreg0 : sockLookup st0.registeredOf sock = some did := hreg
  have hh : handleAgentSocketClose st0 sock =
      (let r1 := closeSessionsForAgent st0 did
       let r2 := closeRdpSessionsForAgent r1.1 did
       let st3 := { r2.1 with agentConnections := mapDelete r2.1.agentConnections did }
       (st3, r1.2 ++ r2.2 ++ broadcastToBrowsers st3 (.deviceList (getDeviceList st3)))) := by
    unfold handleAgentSocketClose
    rw [hreg0]
  constructor
  · intro sess hmem
    rw [hstep, hh]
    have h1 := (closeSessionsForAgent_spec st0 did sess hmem).1
    exact cascadeFold_P
      (fun id sm => closeRDPSession id (some "Agent disconnected") sm)
      (·.id) (·.browserSocket) (fun id => .rdpClose id "Agent disconnected")
      (fun sm => mapLookup sm.ssh.byId sess.id = none)
      (fun sm id h => h)
      (tripleByDevice (closeSessionsForAgent st0 did).1.sm.rdp did)
      (closeSessionsForAgent st0 did).1 [] h1
  · intro sess hmem
    rw [hstep, hh]
    have hpres : (closeSessionsForAgent st0 did).1.sm.rdp = st0.sm.rdp :=
      cascadeFold_P
        (fun id sm => closeSession id (some "Agent disconnected") sm)
        (fun s : SSHSession => s.id) (fun s : SSHSession => s.browserSocket)
        (fun id => .sshClose id "Agent disconnected")
        (fun sm => sm.rdp = st0.sm.rdp)
        (fun sm id h => h)
        (tripleByDevice st0.sm.ssh did) st0 [] rfl
    have hmem2 : sess ∈ tripleByDevice (closeSessionsForAgent st0 did).1.sm.rdp did := by
      rw [hpres]; exact hmem
    exact (closeRdpSessionsForAgent_spec (closeSessionsForAgent st0 did).1 did
      sess hmem2).1

/-- C6: on a browser disconnect, every SSH and RDP session indexed under that
browser is closed through the session manager and its agent endpoint is sent
a close with reason "Browser disconnected" (best-effort, if the agent's
transport is open); symmetrically, on an agent disconnect — the same close
handler that runs after a staleness eviction — every session indexed under
that device is closed and each browser endpoint is sent a close with reason
"Agent disconnected".  The last two conjuncts push the closure through the
full disconnect events. -/
theorem cascading_cleanup_on_disconnect (st : RelayState) (bid did : String) (sock : Nat) :
    (∀ sess ∈ tripleByBrowser st.sm.ssh bid,
      mapLookup (closeSessionsForBrowser st bid).1.sm.ssh.byId sess.id = none ∧
      (sess.agentSocket ∈ st.openSockets →
        Action.send sess.agentSocket (.sshClose sess.id "Browser disconnected")
          ∈ (closeSessionsForBrowser st bid).2)) ∧
    (∀ sess ∈ tripleByBrowser st.sm.rdp bid,
      mapLookup (closeRdpSessionsForBrowser st bid).1.sm.rdp.byId sess.id = none ∧
      (sess.agentSocket ∈ st.openSockets →
        Action.send sess.agentSocket (.rdpClose sess.id "Browser disconnected")
          ∈ (closeRdpSessionsForBrowser st bid).2)) ∧
    (∀ sess ∈ tripleByDevice st.sm.ssh did,
      mapLookup (closeSessionsForAgent st did).1.sm.ssh.byId sess.id = none ∧
      (sess.browserSocket ∈ st.openSockets →
        Action.send sess.browserSocket (.sshClose sess.id "Agent disconnected")
          ∈ (closeSessionsForAgent st did).2)) ∧
    (∀ sess ∈ tripleByDevice st.sm.rdp did,
      mapLookup (closeRdpSessionsForAgent st did).1.sm.rdp.byId sess.id = none ∧
      (sess.browserSocket ∈ st.openSockets →
        Action.send sess.browserSocket (.rdpClose sess.id "Agent disconnected")
          ∈ (closeRdpSessionsForAgent st did).2)) ∧
    ((∀ sess ∈ tripleByBrowser st.sm.ssh bid,
      mapLookup ((stepRelay st (.browserClose bid sock)).1).sm.ssh.byId sess.id = none) ∧
     (∀ sess ∈ tripleByBrowser st.sm.rdp bid,
      mapLookup ((stepRelay st (.browserClose bid sock)).1).sm.rdp.byId sess.id = none)) ∧
    (sockLookup st.registeredOf sock = some did →
     (∀ sess ∈ tripleByDevice st.sm.ssh did,
      mapLookup ((stepRelay st (.agentClose sock)).1).sm.ssh.byId sess.id = none) ∧
     (∀ sess ∈ tripleByDevice st.sm.rdp did,
      mapLookup ((stepRelay st (.agentClose sock)).1).sm.rdp.byId sess.id = none)) :=
  ⟨closeSessionsForBrowser_spec st bid, closeRdpSessionsForBrowser_spec st bid,
   closeSessionsForAgent_spec st did, closeRdpSessionsForAgent_spec st did,
   browserClose_closes_all st bid sock,
   fun hreg => agentClose_closes_all st did sock hreg⟩

/-- A state with browser "b" (socket 7) holding two live SSH sessions against
two different devices (agent sockets 1 and 2), all transports open. -/
def sampleTwoSessionState : RelayState :=
  { initRelay with
    sm := applySM (applySM initSM
      (.createSSH (fun _ => some 7)
        (fun d => if d = "d1" then some 1 else some 2) "d1" "b" (some "s1") "f" 0))
      (.createSSH (fun _ => some 7)
        (fun d => if d = "d1" then some 1 else some 2) "d2" "b" (some "s2") "f" 0),
    openSockets := [1, 2, 7] }

/-- Witness: disconnecting browser "b" with two active sessions against two
devices closes both sessions and notifies both agents with reason "Browser
disconnected". -/
theorem cascading_cleanup_on_disconnect_witness :
    mapLookup (closeSessionsForBrowser sampleTwoSessionState "b").1.sm.ssh.byId "s1" = none ∧
    Action.send 1 (.sshClose "s1" "Browser disconnected")
      ∈ (closeSessionsForBrowser sampleTwoSessionState "b").2 ∧
    mapLookup (closeSessionsForBrowser sampleTwoSessionState "b").1.sm.ssh.byId "s2" = none ∧
    Action.send 2 (.sshClose "s2" "Browser disconnected")
      ∈ (closeSessionsForBrowser sampleTwoSessionState "b").2 := by
  have h1 := (cascading_cleanup_on_disconnect sampleTwoSessionState "b" "" 0).1
    ⟨"s1", "d1", 7, 1, .connecting, 0, 80, 24⟩ (by decide)
  have h2 := (cascading_cleanup_on_disconnect sampleTwoSessionState "b" "" 0).1
    ⟨"s2", "d2", 7, 2, .connecting, 0, 80, 24⟩ (by decide)
  exact ⟨h1.1, h1.2 (by decide), h2.1, h2.2 (by decide)⟩

/-! ## Claim C4: single current transport per device id -/

theorem mapSet_keys_mem {α : Type} {m : List (String × α)} {k x : String} {v : α} :
    x ∈ mapKeys (mapSet m k v) ↔ x ∈ mapKeys m ∨ x = k := by
  induction m with
  | nil => simp [mapSet, mapKeys]
  | cons p rest ih =>
    obtain ⟨k', v'⟩ := p
    by_cases hk : k' = k
    · subst hk
      have hset : mapSet ((k', v') :: rest) k' v = (k', v) :: rest := by
        simp [mapSet]
      rw [hset]
      simp only [mapKeys, List.map_cons, List.mem_cons]
      tauto
    · have hset : mapSet ((k', v') :: rest) k v = (k', v') :: mapSet rest k v := by
        simp [mapSet, hk]
      rw [hset]
      simp only [mapKeys, List.map_cons, List.mem_cons] at ih ⊢
      rw [ih]
      tauto

theorem mapSet_keys_nodup {α : Type} {m : List (String × α)} {k : String} {v : α}
    (h : (mapKeys m).Nodup) : (mapKeys (mapSet m k v)).Nodup := by
  induction m with
  | nil => simp [mapSet, mapKeys]
  | cons p rest ih =>
    obtain ⟨k', v'⟩ := p
    simp only [mapKeys, List.map_cons, List.nodup_cons] at h
    by_cases hk : k' = k
    · subst hk
      simpa [mapSet, mapKeys, List.nodup_cons] using h
    · simp only [mapSet, if_neg hk, mapKeys, List.map_cons, List.nodup_cons]
      refine ⟨?_, ih h.2⟩
      intro hx
      rcases mapSet_keys_mem.mp hx with hx | rfl
      · exact h.1 hx
      · exact hk rfl

theorem mapSet_lookup_self {α : Type} (m : List (String × α)) (k : String) (v : α) :
    mapLookup (mapSet m k v) k = some v := by
  induction m with
  | nil => simp [mapSet, mapLookup]
  | cons p rest ih =>
    obtain ⟨k', v'⟩ := p
    by_cases hk : k' = k
    · subst hk
      simp [mapSet, mapLookup]
    · simp [mapSet, mapLookup, hk, ih]

theorem filter_keys_sublist {α : Type} (m : List (String × α)) (p : String × α → Bool) :
    List.Sublist (mapKeys (m.filter p)) (mapKeys m) := by
  induction m with
  | nil => simp [mapKeys]
  | cons q rest ih =>
    rw [List.filter_cons]
    by_cases hq : p q = true
    · simp only [hq, if_pos]
      exact List.Sublist.cons₂ q.1 ih
    · simp only [hq, Bool.false_eq_true, if_neg, if_false]
      exact List.Sublist.trans ih (List.sublist_cons_self _ _)

theorem filter_key_count {α : Type} {m : List (String × α)} (d : String)
    (h : (mapKeys m).Nodup) : (m.filter (fun p => p.1 = d)).length ≤ 1 := by
  induction m with
  | nil => simp
  | cons q rest ih =>
    obtain ⟨k, v⟩ := q
    simp only [mapKeys, List.map_cons, List.nodup_cons] at h
    by_cases hk : k = d
    · subst hk
      have hnone : rest.filter (fun p => p.1 = k) = [] := by
        rw [List.filter_eq_nil_iff]
        intro a ha
        simp only [decide_eq_true_eq]
        intro he
        exact h.1 (he ▸ List.mem_map_of_mem Prod.fst ha)
      simp [List.filter_cons, hnone]
    · simp only [List.filter_cons]
      rw [if_neg (by simp [hk])]
      exact ih h.2

/-- The agent-registry-keys invariant. -/
def AgentKeysNodup (st : RelayState) : Prop := (mapKeys st.agentConnections).Nodup

theorem handleSshSessionRequestFromBrowser_agents (st : RelayState) (p : Option JVal)
    (bid : String) (bs : Nat) (fresh : String) (now : Nat) :
    (handleSshSessionRequestFromBrowser st p bid bs fresh now).1.agentConnections
      = st.agentConnections := by
  unfold handleSshSessionRequestFromBrowser
  split
  · rfl
  · split
    · rfl
    · dsimp only
      split <;> rfl

theorem handleRdpSessionRequestFromBrowser_agents (st : RelayState) (p : Option JVal)
    (bid : String) (bs : Nat) (fresh : String) (now : Nat) :
    (handleRdpSessionRequestFromBrowser st p bid bs fresh now).1.agentConnections
      = st.agentConnections := by
  unfold handleRdpSessionRequestFromBrowser
  split
  · rfl
  · split
    · rfl
    · dsimp only
      split <;> rfl

theorem handleSshSessionResponseFromAgent_agents (st : RelayState) (p : Option JVal) :
    (handleSshSessionResponseFromAgent st p).1.agentConnections = st.agentConnections := by
  unfold handleSshSessionResponseFromAgent
  split
  · rfl
  · split
    · rfl
    · split <;> rfl

theorem handleRdpSessionResponseFromAgent_agents (st : RelayState) (p : Option JVal) :
    (handleRdpSessionResponseFromAgent st p).1.agentConnections = st.agentConnections := by
  unfold handleRdpSessionResponseFromAgent
  split
  · rfl
  · split
    · rfl
    · split <;> rfl

theorem handleSshDataFromBrowser_agents (st : RelayState) (p : Option JVal) :
    (handleSshDataFromBrowser st p).1.agentConnections = st.agentConnections := by
  unfold handleSshDataFromBrowser
  split
  · rfl
  · split <;> rfl

theorem handleSshDataFromAgent_agents (st : RelayState) (p : Option JVal) :
    (handleSshDataFromAgent st p).1.agentConnections = st.agentConnections := by
  unfold handleSshDataFromAgent
  split
  · rfl
  · split <;> rfl

theorem handleRdpDataFromBrowser_agents (st : RelayState) (p : Option JVal) :
    (handleRdpDataFromBrowser st p).1.agentConnections = st.agentConnections := by
  unfold handleRdpDataFromBrowser
  split
  · rfl
  · split <;> rfl

theorem handleRdpDataFromAgent_agents (st : RelayState) (p : Option JVal) :
    (handleRdpDataFromAgent st p).1.agentConnections = st.agentConnections := by
  unfold handleRdpDataFromAgent
  split
  · rfl
  · split <;> rfl

theorem handleSshResizeFromBrowser_agents (st : RelayState) (p : Option JVal) :
    (handleSshResizeFromBrowser st p).1.agentConnections = st.agentConnections := by
  unfold handleSshResizeFromBrowser
  split
  · rfl
  · split <;> rfl

theorem handleSshClose_agents (st : RelayState) (p : Option JVal) (b : Bool) :
    (handleSshClose st p b).1.agentConnections = st.agentConnections := by
  unfold handleSshClose
  split
  · rfl
  · split <;> rfl

theorem handleRdpClose_agents (st : RelayState) (p : Option JVal) (b : Bool) :
    (handleRdpClose st p b).1.agentConnections = st.agentConnections := by
  unfold handleRdpClose
  split
  · rfl
  · split <;> rfl

theorem handleAgentHeartbeat_agents_nodup (st : RelayState) (sock : Nat)
    (p : Option JVal) (now : Nat) (h : AgentKeysNodup st) :
    AgentKeysNodup (handleAgentHeartbeat st sock p now).1 := by
  unfold handleAgentHeartbeat
  split
  · exact h
  · dsimp only
    split
    · unfold AgentKeysNodup
      dsimp only
      rw [mapUpdate_keys]
      exact h
    · exact h

theorem handleAgentRegister_agents_nodup (st : RelayState) (sock : Nat)
    (p : Option JVal) (connectedAt now : Nat) (h : AgentKeysNodup st) :
    AgentKeysNodup (handleAgentRegister st sock p connectedAt now).1 := by
  unfold handleAgentRegister
  split
  · exact h
  · exact mapSet_keys_nodup h

theorem stepRelay_agents_nodup (st : RelayState) (e : REvent) (h : AgentKeysNodup st) :
    AgentKeysNodup (stepRelay st e).1 := by
  cases e with
  | agentConnect sock => exact h
  | agentMsg sock raw connectedAt now =>
    show AgentKeysNodup (handleAgentMessage st sock raw connectedAt now).1
    unfold handleAgentMessage
    split
    · exact h
    · split
      · exact h
      · split
        · exact handleAgentRegister_agents_nodup st sock _ connectedAt now h
        · split
          · exact handleAgentHeartbeat_agents_nodup st sock _ now h
          · split
            · unfold AgentKeysNodup
              rw [handleSshSessionResponseFromAgent_agents]
              exact h
            · split
              · unfold AgentKeysNodup
                rw [handleSshDataFromAgent_agents]
                exact h
              · split
                · unfold AgentKeysNodup handleSshCloseFromAgent
                  rw [handleSshClose_agents]
                  exact h
                · split
                  · unfold AgentKeysNodup
                    rw [handleRdpSessionResponseFromAgent_agents]
                    exact h
                  · split
                    · unfold AgentKeysNodup
                      rw [handleRdpDataFromAgent_agents]
                      exact h
                    · split
                      · unfold AgentKeysNodup handleRdpCloseFromAgent
                        rw [handleRdpClose_agents]
                        exact h
                      · exact h
  | agentClose sock =>
    set st0 : RelayState :=
      { st with openSockets := st.openSockets.filter (fun s => s ≠ sock) } with hst0
    show AgentKeysNodup (handleAgentSocketClose st0 sock).1
    unfold handleAgentSocketClose
    split
    · exact h
    · rename_i did hreg
      dsimp only
      unfold AgentKeysNodup
      rw [mapDelete_keys]
      apply List.Nodup.filter
      have e2 : (closeRdpSessionsForAgent (closeSessionsForAgent st0 did).1 did).1.agentConnections
          = (closeSessionsForAgent st0 did).1.agentConnections := by
        unfold closeRdpSessionsForAgent cascadeClose
        exact (cascadeFold_spec
          (fun id sm => closeRDPSession id (some "Agent disconnected") sm)
          (fun s : RDPSession => s.id) (fun s : RDPSession => s.browserSocket)
          (fun id => .rdpClose id "Agent disconnected")
          (tripleByDevice (closeSessionsForAgent st0 did).1.sm.rdp did)
          (closeSessionsForAgent st0 did).1 []).2.1
      have e1 : (closeSessionsForAgent st0 did).1.agentConnections = st0.agentConnections := by
        unfold closeSessionsForAgent cascadeClose
        exact (cascadeFold_spec
          (fun id sm => closeSession id (some "Agent disconnected") sm)
          (fun s : SSHSession => s.id) (fun s : SSHSession => s.browserSocket)
          (fun id => .sshClose id "Agent disconnected")
          (tripleByDevice st0.sm.ssh did) st0 []).2.1
      rw [e2, e1]
      exact h
  | browserConnect id sock connectedAt => exact h
  | browserMsg browserId sock raw fresh now =>
    show AgentKeysNodup (handleBrowserMessage st browserId sock raw fresh now).1
    unfold handleBrowserMessage
    split
    · exact h
    · split
      · exact h
      · split
        · exact h
        · split
          · unfold AgentKeysNodup
            rw [handleSshSessionRequestFromBrowser_agents]
            exact h
          · split
            · unfold AgentKeysNodup
              rw [handleSshDataFromBrowser_agents]
              exact h
            · split
              · unfold AgentKeysNodup
                rw [handleSshResizeFromBrowser_agents]
                exact h
              · split
                · unfold AgentKeysNodup handleSshCloseFromBrowser
                  rw [handleSshClose_agents]
                  exact h
                · split
                  · unfold AgentKeysNodup
                    rw [handleRdpSessionRequestFromBrowser_agents]
                    exact h
                  · split
                    · unfold AgentKeysNodup
                      rw [handleRdpDataFromBrowser_agents]
                      exact h
                    · split
                      · unfold AgentKeysNodup handleRdpCloseFromBrowser
                        rw [handleRdpClose_agents]
                        exact h
                      · exact h
  | browserClose browserId sock =>
    set st0 : RelayState :=
      { st with openSockets := st.openSockets.filter (fun s => s ≠ sock) } with hst0
    show AgentKeysNodup (handleBrowserSocketClose st0 browserId).1
    unfold handleBrowserSocketClose
    dsimp only
    unfold AgentKeysNodup
    have e2 : (closeRdpSessionsForBrowser (closeSessionsForBrowser st0 browserId).1
          browserId).1.agentConnections
        = (closeSessionsForBrowser st0 browserId).1.agentConnections := by
      unfold closeRdpSessionsForBrowser cascadeClose
      exact (cascadeFold_spec
        (fun id sm => closeRDPSession id (some "Browser disconnected") sm)
        (fun s : RDPSession => s.id) (fun s : RDPSession => s.agentSocket)
        (fun id => .rdpClose id "Browser disconnected")
        (tripleByBrowser (closeSessionsForBrowser st0 browserId).1.sm.rdp browserId)
        (closeSessionsForBrowser st0 browserId).1 []).2.1
    have e1 : (closeSessionsForBrowser st0 browserId).1.agentConnections
        = st0.agentConnections := by
      unfold closeSessionsForBrowser cascadeClose
      exact (cascadeFold_spec
        (fun id sm => closeSession id (some "Browser disconnected") sm)
        (fun s : SSHSession => s.id) (fun s : SSHSession => s.agentSocket)
        (fun id => .sshClose id "Browser disconnected")
        (tripleByBrowser st0.sm.ssh browserId) st0 []).2.1
    rw [e2, e1]
    exact h
  | sweep now =>
    show AgentKeysNodup (cleanupStaleConnections st now).1
    unfold cleanupStaleConnections
    dsimp only
    exact List.Nodup.sublist (filter_keys_sublist _ _) h

theorem runRelay_agents_nodup : ∀ (evs : List REvent) (st : RelayState),
    AgentKeysNodup st → AgentKeysNodup (runRelay st evs) := by
  intro evs
  induction evs with
  | nil => intro st h; exact h
  | cons e es ih =>
    intro st h
    exact ih (stepRelay st e).1 (stepRelay_agents_nodup st e h)

/-- C4: when an agent registers with a `deviceId` already in the registry,
the prior connection's transport is sent the close signal as the very first
action — before the acknowledgment and broadcast that follow the insertion —
and afterwards the new socket is the registered one; and in every run of the
relay from the initial state, at most one connection is current for any
device id at every reachable state (each point of an execution being the end
state of a prefix of its events). -/
theorem agent_replacement_single_current :
    (∀ (st : RelayState) (sock : Nat) (payload : Option JVal) (connectedAt now : Nat)
       (d : AgentRegisterData) (old : AgentConnectionInfo),
      validateAgentRegisterPayload payload = .ok d →
      mapLookup st.agentConnections d.deviceId = some old →
      (∃ rest, (handleAgentRegister st sock payload connectedAt now).2
          = Action.closeTransport old.socket 1000 "Replaced by new connection" :: rest) ∧
      mapLookup (handleAgentRegister st sock payload connectedAt now).1.agentConnections
          d.deviceId
        = some ⟨sock, d.deviceId, d.deviceName, d.ipAddress, d.capabilities,
            connectedAt, now⟩) ∧
    (∀ (evs : List REvent) (dev : String),
      ((runRelay initRelay evs).agentConnections.filter
        (fun p => p.1 = dev)).length ≤ 1) := by
  constructor
  · intro st sock payload connectedAt now d old hv hold
    unfold handleAgentRegister
    rw [hv]
    dsimp only
    rw [hold]
    dsimp only
    constructor
    · exact ⟨_, rfl⟩
    · exact mapSet_lookup_self st.agentConnections d.deviceId _
  · intro evs dev
    exact filter_key_count dev
      (runRelay_agents_nodup evs initRelay (by simp [initRelay, mapKeys, AgentKeysNodup]))

/-- The raw payload of `sampleRegisterRaw`. -/
def sampleRegisterPayload : JVal :=
  .jobj [("deviceId", .jstr "pi-1"), ("deviceName", .jstr "Pi"),
    ("ipAddress", .jstr "10.0.0.1"),
    ("capabilities", .jobj [("ssh", .jbool true)])]

/-- Witness: re-registering device "pi-1" (previously on socket 1) from
socket 2 emits the close of socket 1 first and leaves socket 2 registered. -/
theorem agent_replacement_single_current_witness :
    (∃ rest,
      (handleAgentRegister
        (runRelay initRelay [.agentConnect 1, .agentMsg 1 sampleRegisterRaw 0 0])
        2 (some sampleRegisterPayload) 5 5).2
        = Action.closeTransport 1 1000 "Replaced by new connection" :: rest) ∧
    mapLookup (handleAgentRegister
        (runRelay initRelay [.agentConnect 1, .agentMsg 1 sampleRegisterRaw 0 0])
        2 (some sampleRegisterPayload) 5 5).1.agentConnections "pi-1"
      = some ⟨2, "pi-1", "Pi", "10.0.0.1", ⟨true, none⟩, 5, 5⟩ :=
  agent_replacement_single_current.1
    (runRelay initRelay [.agentConnect 1, .agentMsg 1 sampleRegisterRaw 0 0])
    2 (some sampleRegisterPayload) 5 5
    ⟨"pi-1", "Pi", "10.0.0.1", ⟨true, none⟩⟩
    ⟨1, "pi-1", "Pi", "10.0.0.1", ⟨true, none⟩, 0, 0⟩
    (by rfl) (by rfl)

end Pylon
